import Mathlib

/-!
A shallow embedding of `src/gltf/Raw2Gltf.cpp` (the glTF assembler of
FBX2glTF), together with proofs about its behaviour.

Conventions of the embedding:
* bytes written to the output stream are modelled as `Nat` values;
* 32-bit float arithmetic is modelled by exact rationals (`Rat`); where the
  code calls `sqrtf` the embedding takes an abstract square-root function as
  a parameter;
* the collaborator classes that are not part of the repository slice under
  verification (`GltfModel`, `TextureBuilder`, the `*Data` property classes)
  are modelled from the specification, as noted on each definition.
-/

namespace FBX2glTF

/-! ## Common scalar and glTF type definitions -/

/-- A 3-float vector, modelled over exact rationals. -/
abbrev Vec3q := Rat × Rat × Rat

/-- A 4-float vector (also used for RGBA pixels), modelled over exact
rationals. -/
abbrev Vec4q := Rat × Rat × Rat × Rat

/-- Squared euclidean length of a `Vec3q`; the source tests
`position.Length() > 0.00`, which for finite values holds exactly when the
squared length is positive. -/
def vec3Len2 (v : Vec3q) : Rat := v.1 * v.1 + v.2.1 * v.2.1 + v.2.2 * v.2.2

/-- glTF component type code for `UNSIGNED_SHORT`. -/
def CT_USHORT : Nat := 5123

/-- glTF component type code for `UNSIGNED_INT`. -/
def CT_UINT : Nat := 5125

/-- glTF component type code for `FLOAT`. -/
def CT_FLOAT : Nat := 5126

/-- A glTF data type triple, as the `GltfType` values (`GLT_FLOAT`,
`GLT_VEC3F`, ...) used throughout `Raw2Gltf.cpp`. -/
structure GltfType where
  componentType : Nat
  count : Nat
  dataType : String
deriving Repr, DecidableEq

def GLT_FLOAT : GltfType := ⟨CT_FLOAT, 1, "SCALAR"⟩

def GLT_USHORT : GltfType := ⟨CT_USHORT, 1, "SCALAR"⟩

def GLT_UINT : GltfType := ⟨CT_UINT, 1, "SCALAR"⟩

def GLT_VEC3F : GltfType := ⟨CT_FLOAT, 3, "VEC3"⟩

def GLT_VEC4F : GltfType := ⟨CT_FLOAT, 4, "VEC4"⟩

def GLT_QUATF : GltfType := ⟨CT_FLOAT, 4, "VEC4"⟩

/-! ## The .glb output stream (`options.outputBinary` path, lines 953-1069)

`Raw2Gltf` writes the .glb container through a `std::ofstream`: it appends
the 12-byte header, the JSON chunk sub-header, the JSON text, space padding,
the BIN chunk sub-header, the binary buffer and zero padding, and then seeks
back to patch the three length fields.  The stream is modelled as the byte
list written so far plus a write position; a write inside the file
overwrites, a write at the end appends. -/

structure OStream where
  data : List Nat
  pos : Nat
deriving Repr, DecidableEq

/-- `std::ofstream::put` of a single byte at the current write position. -/
def OStream.putByte (s : OStream) (b : Nat) : OStream :=
  if s.pos < s.data.length then
    { data := s.data.set s.pos b, pos := s.pos + 1 }
  else
    { data := s.data ++ [b], pos := s.pos + 1 }

/-- `std::ofstream::write` of a byte sequence. -/
def OStream.writeBytes (s : OStream) (bs : List Nat) : OStream :=
  bs.foldl OStream.putByte s

/-- `std::ofstream::tellp`. -/
def OStream.tellp (s : OStream) : Nat := s.pos

/-- `std::ofstream::seekp(p)`. -/
def OStream.seekp (s : OStream) (p : Nat) : OStream := { s with pos := p }

/-- `std::ofstream::seekp(0, std::ios::end)`. -/
def OStream.seekEnd (s : OStream) : OStream := { s with pos := s.data.length }

/-- The little-endian byte quadruple the source emits for a 32-bit length
field: four `put((x >> k) & 0xFF)` calls with `k = 0, 8, 16, 24`. -/
def le32 (x : Nat) : List Nat :=
  [x &&& 255, (x >>> 8) &&& 255, (x >>> 16) &&& 255, (x >>> 24) &&& 255]

/-- The padding loops of the .glb writer
(`while ((n % 4) != 0) { stream.put(b); n++; }`); returns the stream and the
padded length. -/
def padLoop (s : OStream) (n : Nat) (b : Nat) : OStream × Nat :=
  if n % 4 = 0 then (s, n)
  else padLoop (s.putByte b) (n + 1) b
termination_by (4 - n % 4) % 4
decreasing_by omega

/-- Result of the binary .glb emission: the final stream, plus the values of
the local variables `jsonLength`, `binHeader`, `binaryLength` and
`totalLength` of the source. -/
structure GlbResult where
  stream : OStream
  jsonLength : Nat
  binHeaderOfs : Nat
  binaryLength : Nat
  totalLength : Nat
deriving Repr

/-- The `options.outputBinary` output path of `Raw2Gltf` (lines 953-983 and
1012-1069): header and JSON sub-header before the JSON dump, then chunk
padding and the seek-back patching of the three little-endian length
fields.  `jsonBytes` stands for the bytes of `glTFJson.dump(0)` and
`binBytes` for the contents of `gltf->binary`.  Byte values:
`glTF` = 103,108,84,70; `JSON` = 74,83,79,78; `BIN\0` = 66,73,78,0;
a space is 32. -/
def writeBinaryGlb (jsonBytes binBytes : List Nat) : GlbResult :=
  let s0 : OStream := { data := [], pos := 0 }
  let s1 := s0.writeBytes [103, 108, 84, 70, 2, 0, 0, 0, 0, 0, 0, 0]
  let s2 := s1.writeBytes [0, 0, 0, 0, 74, 83, 79, 78]
  let s3 := s2.writeBytes jsonBytes
  let jl0 := s3.tellp - 20
  let p1 := padLoop s3 jl0 32
  let s4 := p1.1
  let jsonLength := p1.2
  let binHeaderOfs := s4.tellp
  let s5 := s4.writeBytes [0, 0, 0, 0, 66, 73, 78, 0]
  let s6 := s5.writeBytes binBytes
  let p2 := padLoop s6 binBytes.length 0
  let s7 := p2.1
  let binaryLength := p2.2
  let totalLength := s7.tellp
  let s8 := (s7.seekp 8).writeBytes (le32 totalLength)
  let s9 := s8.writeBytes (le32 jsonLength)
  let s10 := (s9.seekp binHeaderOfs).writeBytes (le32 binaryLength)
  let s11 := s10.seekEnd
  { stream := s11, jsonLength := jsonLength, binHeaderOfs := binHeaderOfs,
    binaryLength := binaryLength, totalLength := totalLength }

/-- Closed form of `writeBinaryGlb`, used as a proof vehicle: the appended
file with both padding runs, then three four-byte patches. -/
def glbExpected (jsonBytes binBytes : List Nat) : GlbResult :=
  let k1 := (4 - jsonBytes.length % 4) % 4
  let k2 := (4 - binBytes.length % 4) % 4
  let jl := jsonBytes.length + k1
  let bl := binBytes.length + k2
  let ofs := 20 + jsonBytes.length + k1
  let total := 20 + jsonBytes.length + k1 + 8 + binBytes.length + k2
  let A := [103, 108, 84, 70, 2, 0, 0, 0, 0, 0, 0, 0] ++ [0, 0, 0, 0, 74, 83, 79, 78] ++
    jsonBytes ++ List.replicate k1 32 ++ [0, 0, 0, 0, 66, 73, 78, 0] ++ binBytes ++
    List.replicate k2 0
  let A1 := A.take 8 ++ le32 total ++ A.drop 12
  let A2 := A1.take 12 ++ le32 jl ++ A1.drop 16
  let A3 := A2.take ofs ++ le32 bl ++ A2.drop (ofs + 4)
  ⟨⟨A3, A3.length⟩, jl, ofs, bl, total⟩

/-! ## Options (`GltfOptions`, used by `Raw2Gltf`) -/

inductive UseLongIndicesOptions
  | NEVER
  | AUTO
  | ALWAYS
deriving Repr, DecidableEq

structure GltfOptions where
  useLongIndices : UseLongIndicesOptions
  disableSparseBlendShapes : Bool
  useBlendShapeNormals : Bool
  useBlendShapeTangents : Bool
deriving Repr, DecidableEq

/-- The per-surface index-width decision of lines 502-504. -/
def computeUseLongIndices (o : GltfOptions) (vertexCount : Nat) : Bool :=
  (o.useLongIndices == UseLongIndicesOptions.ALWAYS) ||
    ((o.useLongIndices == UseLongIndicesOptions.AUTO) && decide (vertexCount > 65535))

/-! ## Buffer views and accessors

`GltfModel`, the holder classes and the `*Data` property classes are not
part of the source slice; they are modelled from the specification
(§4.2-§4.4).  A holder is a list; holding appends and stamps `ix` with the
position. -/

def GL_ARRAY_NONE : Nat := 0

def GL_ARRAY_BUFFER : Nat := 34962

def GL_ELEMENT_ARRAY_BUFFER : Nat := 34963

/-- The typed payload copied into a buffer view (or spanned by a dense
accessor). -/
inductive ViewContent
  | empty
  | idx (componentType : Nat) (indices : List Nat)
  | scalarArr (vals : List Rat)
  | vec3Arr (vals : List Vec3q)
  | vec4Arr (vals : List Vec4q)
deriving Repr, DecidableEq

def ViewContent.elemCount : ViewContent → Nat
  | .empty => 0
  | .idx _ l => l.length
  | .scalarArr l => l.length
  | .vec3Arr l => l.length
  | .vec4Arr l => l.length

structure BufferViewData where
  ix : Nat
  target : Nat
  content : ViewContent
deriving Repr, DecidableEq

def BufferViewData.dflt : BufferViewData := ⟨0, 0, .empty⟩

/-- The sparse block of an accessor: element count, the base accessor's
index, the indices view (with its component type) and the values view. -/
structure SparseInfo where
  count : Nat
  baseIx : Nat
  idxViewIx : Nat
  idxComponentType : Nat
  valViewIx : Nat
  valType : GltfType
deriving Repr, DecidableEq

structure AccessorData where
  ix : Nat
  accType : GltfType
  count : Nat
  name : String
  sparse : Option SparseInfo := none
  content : ViewContent := .empty
  minVals : List Rat := []
  maxVals : List Rat := []
deriving Repr, DecidableEq

def AccessorData.dflt : AccessorData :=
  { ix := 0, accType := GLT_FLOAT, count := 0, name := "" }

/-- The accessor and buffer-view holders of `GltfModel`. -/
structure GltfState where
  bufferViews : List BufferViewData
  accessors : List AccessorData
deriving Repr, DecidableEq

/-- Modelled from the spec (§4.2): `GltfModel::GetAlignedBufferView` holds a
fresh empty buffer view with the given target and returns it.  The returned
record plays the role of the C++ `shared_ptr<BufferViewData>`. -/
def GltfState.getAlignedBufferView (st : GltfState) (target : Nat) : GltfState × BufferViewData :=
  let v : BufferViewData := ⟨st.bufferViews.length, target, .empty⟩
  ({ st with bufferViews := st.bufferViews ++ [v] }, v)

/-- Modelled from the spec (§4.2): copying typed data into a (freshly
created, still empty) buffer view; covers both `CopyToBufferView` and
`BufferViewData::appendAsBinaryArray`.  Returns the updated view record,
as the C++ code mutates the pointee of the `shared_ptr` holding the view. -/
def GltfState.setViewContent (st : GltfState) (v : BufferViewData) (c : ViewContent) :
    GltfState × BufferViewData :=
  let v2 := { v with content := c }
  ({ st with bufferViews := st.bufferViews.set v.ix v2 }, v2)

/-- `GltfModel::CopyToBufferView view indices componentType`. -/
def GltfState.copyToBufferView (st : GltfState) (v : BufferViewData) (indices : List Nat)
    (ct : Nat) : GltfState × BufferViewData :=
  st.setViewContent v (.idx ct indices)

/-- Modelled from the spec (§4.3): `AddAccessorWithView` copies `values`
into the view and holds a dense accessor of the given type spanning them. -/
def GltfState.addAccessorWithView (st : GltfState) (v : BufferViewData) (t : GltfType)
    (values : ViewContent) (name : String) : GltfState × AccessorData :=
  let r := st.setViewContent v values
  let acc : AccessorData :=
    { ix := r.1.accessors.length, accType := t, count := values.elemCount,
      name := name, content := values }
  ({ r.1 with accessors := r.1.accessors ++ [acc] }, acc)

/-- Modelled from the spec (§4.3): `AddSparseAccessor base idxView idxCT
valView valT name` holds a sparse accessor whose non-sparse fields mirror
`base`; the sparse element count is the element count of the indices view. -/
def GltfState.addSparseAccessor (st : GltfState) (base : AccessorData)
    (idxView : BufferViewData) (idxCT : Nat) (valView : BufferViewData) (valT : GltfType)
    (name : String) : GltfState × AccessorData :=
  let acc : AccessorData :=
    { ix := st.accessors.length, accType := base.accType, count := base.count, name := name,
      sparse := some ⟨idxView.content.elemCount, base.ix, idxView.ix, idxCT, valView.ix, valT⟩ }
  ({ st with accessors := st.accessors ++ [acc] }, acc)

/-- Modelled from the spec (§4.3): `AddSparseAccessorWithView` first copies
`values` into the values view, then behaves as `AddSparseAccessor`. -/
def GltfState.addSparseAccessorWithView (st : GltfState) (base : AccessorData)
    (idxView : BufferViewData) (idxCT : Nat) (valView : BufferViewData) (valT : GltfType)
    (values : ViewContent) (name : String) : GltfState × AccessorData :=
  let r := st.setViewContent valView values
  r.1.addSparseAccessor base idxView idxCT r.2 valT name

/-- Modelled from the spec (§4.3, §4.7 step 4): `AddAttributeToPrimitive`
holds one accessor per vertex attribute, with `count` equal to the surface's
vertex count, backed by a fresh array-buffer view. -/
def GltfState.addAttributeAccessor (st : GltfState) (t : GltfType) (vertexCount : Nat)
    (name : String) : GltfState × AccessorData :=
  let r := st.getAlignedBufferView GL_ARRAY_BUFFER
  let acc : AccessorData :=
    { ix := r.1.accessors.length, accType := t, count := vertexCount, name := name }
  ({ r.1 with accessors := r.1.accessors ++ [acc] }, acc)

/-! ## Surfaces, blend channels and morph targets (lines 475-777) -/

structure BlendVertex where
  position : Vec3q
  normal : Vec3q
  tangent : Vec4q
deriving Repr, DecidableEq

def BlendVertex.zero : BlendVertex := ⟨(0, 0, 0), (0, 0, 0), (0, 0, 0, 0)⟩

/-- The slice of `RawVertex` the morph-target loop reads: the per-blend
channel deltas. -/
structure RawVertexModel where
  blends : List BlendVertex
deriving Repr, DecidableEq

structure RawBlendChannel where
  name : String
  hasNormals : Bool
  hasTangents : Bool
deriving Repr, DecidableEq

/-- One per-material surface model (the source asserts each carries exactly
one surface).  `hasNormalAttr` / `hasTangentAttr` mirror the
`RAW_VERTEX_ATTRIBUTE_NORMAL` / `_TANGENT` bits; the POSITION attribute is
always present on surfaces reaching the morph-target path (the source
dereferences `pAccBase` unconditionally there). -/
structure SurfaceModel where
  vertices : List RawVertexModel
  triangles : List (Nat × Nat × Nat)
  blendChannels : List RawBlendChannel
  hasNormalAttr : Bool
  hasTangentAttr : Bool
deriving Repr, DecidableEq

/-- `getIndexArray` (lines 68-77): the flattened triangle index list. -/
def getIndexArray (s : SurfaceModel) : List Nat :=
  s.triangles.foldr (fun t r => t.1 :: t.2.1 :: t.2.2 :: r) []

/-- The per-channel vertex scan results (lines 646-679): `sparseIndices`,
`positions`, `normals`, `tangents`. -/
structure ChannelScan where
  sparseIndices : List Nat
  positions : List Vec3q
  normals : List Vec3q
  tangents : List Vec4q
deriving Repr, DecidableEq

/-- One iteration of the vertex loop of lines 651-679. -/
def scanChannelStep (o : GltfOptions) (channel : RawBlendChannel) (acc : ChannelScan)
    (jj : Nat) (blendVertex : BlendVertex) : ChannelScan :=
  let isSparseVertex := o.disableSparseBlendShapes || decide (0 < vec3Len2 blendVertex.position)
  if isSparseVertex then
    { sparseIndices := acc.sparseIndices ++ [jj]
      positions := acc.positions ++ [blendVertex.position]
      normals := acc.normals ++
        (if o.useBlendShapeNormals && channel.hasNormals then [blendVertex.normal] else [])
      tangents := acc.tangents ++
        (if o.useBlendShapeTangents && channel.hasTangents then [blendVertex.tangent] else []) }
  else acc

/-- The vertex loop of lines 651-679 for one blend channel. -/
def scanChannel (o : GltfOptions) (channel : RawBlendChannel) (channelIx : Nat)
    (vertices : List RawVertexModel) : ChannelScan :=
  (List.range vertices.length).foldl
    (fun acc jj =>
      scanChannelStep o channel acc jj (((vertices.getD jj ⟨[]⟩).blends).getD channelIx .zero))
    ⟨[], [], [], []⟩

/-- A morph target attached by `primitive->AddTarget(pAcc, nAcc, tAcc)`
(line 776); the three accessors as they were at creation (held accessors
are never mutated afterwards). -/
structure MorphTarget where
  p : AccessorData
  n : Option AccessorData
  t : Option AccessorData
deriving Repr, DecidableEq

/-- The mutable context threaded through the blend-channel loop: the glTF
holders plus the two lazily created dummy buffer views (lines 547-548). -/
structure MeshCtx where
  gltf : GltfState
  dummyIdxView : Option BufferViewData
  dummyDataView : Option BufferViewData
deriving Repr, DecidableEq

/-- The body of the blend-channel loop (lines 640-777) for one channel.
`useLong` is the surface's index-width decision; `pAccBase` / `nAccBase` are
the base POSITION / NORMAL accessors (the source dereferences these
unconditionally on the paths that use them). -/
def processChannel (o : GltfOptions) (useLong : Bool) (pAccBase nAccBase : AccessorData)
    (ctx : MeshCtx) (channelIx : Nat) (channel : RawBlendChannel)
    (vertices : List RawVertexModel) : MeshCtx × MorphTarget :=
  let scan := scanChannel o channel channelIx vertices
  let ict := if useLong then CT_UINT else CT_USHORT
  if !o.disableSparseBlendShapes then
    if scan.sparseIndices.length = 0 then
      -- lines 689-715: initialize the dummy buffer views if needed, then a
      -- sparse accessor over the base position accessor.
      let d1 : GltfState × BufferViewData :=
        match ctx.dummyIdxView with
        | some v => (ctx.gltf, v)
        | none =>
          let r := ctx.gltf.getAlignedBufferView GL_ARRAY_NONE
          r.1.copyToBufferView r.2 [0] ict
      let d2 : GltfState × BufferViewData :=
        match ctx.dummyDataView with
        | some v => (d1.1, v)
        | none =>
          let r := d1.1.getAlignedBufferView GL_ARRAY_NONE
          r.1.setViewContent r.2 (.vec3Arr [(0, 0, 0)])
      let r := d2.1.addSparseAccessor pAccBase d1.2 ict d2.2 GLT_VEC3F channel.name
      (⟨r.1, some d1.2, some d2.2⟩, ⟨r.2, none, none⟩)
    else
      -- lines 716-751: an orphan view for the sparse indices, then sparse
      -- accessors for positions, normals and tangents.
      let iv := ctx.gltf.getAlignedBufferView GL_ARRAY_NONE
      let cv := iv.1.copyToBufferView iv.2 scan.sparseIndices ict
      let vv := cv.1.getAlignedBufferView GL_ARRAY_NONE
      let pr := vv.1.addSparseAccessorWithView pAccBase cv.2 ict vv.2 GLT_VEC3F
        (.vec3Arr scan.positions) channel.name
      let nr : GltfState × Option AccessorData :=
        if scan.normals.length ≠ 0 then
          let nv := pr.1.getAlignedBufferView GL_ARRAY_NONE
          let r := nv.1.addSparseAccessorWithView nAccBase cv.2 ict nv.2 GLT_VEC3F
            (.vec3Arr scan.normals) channel.name
          (r.1, some r.2)
        else (pr.1, none)
      let tr : GltfState × Option AccessorData :=
        if scan.tangents.length ≠ 0 then
          -- line 742-743: the source passes *nAccBase (the NORMAL base
          -- accessor) as the base of the tangent sparse accessor.
          let tv := nr.1.getAlignedBufferView GL_ARRAY_NONE
          let r := tv.1.addSparseAccessorWithView nAccBase cv.2 ict tv.2 GLT_VEC4F
            (.vec4Arr scan.tangents) channel.name
          (r.1, some r.2)
        else (nr.1, none)
      (⟨tr.1, ctx.dummyIdxView, ctx.dummyDataView⟩, ⟨pr.2, nr.2, tr.2⟩)
  else
    -- lines 752-772: dense morph-target accessors.  Note that the tangent
    -- branch assigns the VEC4F accessor to `nAcc`, exactly as the source
    -- does, and `tAcc` is never assigned on this path.
    let pv := ctx.gltf.getAlignedBufferView GL_ARRAY_BUFFER
    let pr := pv.1.addAccessorWithView pv.2 GLT_VEC3F (.vec3Arr scan.positions) channel.name
    let nr : GltfState × Option AccessorData :=
      if scan.normals.length ≠ 0 then
        let nv := pr.1.getAlignedBufferView GL_ARRAY_BUFFER
        let r := nv.1.addAccessorWithView nv.2 GLT_VEC3F (.vec3Arr scan.normals) channel.name
        (r.1, some r.2)
      else (pr.1, none)
    let nr2 : GltfState × Option AccessorData :=
      if scan.tangents.length ≠ 0 then
        let tv := nr.1.getAlignedBufferView GL_ARRAY_BUFFER
        let r := tv.1.addAccessorWithView tv.2 GLT_VEC4F (.vec4Arr scan.tangents) channel.name
        (r.1, some r.2)
      else nr
    (⟨nr2.1, ctx.dummyIdxView, ctx.dummyDataView⟩, ⟨pr.2, nr2.2, none⟩)

/-- The blend-channel loop of line 640, from channel `channelIx` on. -/
def processChannels (o : GltfOptions) (useLong : Bool) (pAccBase nAccBase : AccessorData)
    (vertices : List RawVertexModel) :
    MeshCtx → Nat → List RawBlendChannel → MeshCtx × List MorphTarget
  | ctx, _, [] => (ctx, [])
  | ctx, channelIx, c :: cs =>
    let r := processChannel o useLong pAccBase nAccBase ctx channelIx c vertices
    let rest := processChannels o useLong pAccBase nAccBase vertices r.1 (channelIx + 1) cs
    (rest.1, r.2 :: rest.2)

/-- The result of processing one surface model. -/
structure SurfaceResult where
  ctx : MeshCtx
  useLong : Bool
  indexAccessor : AccessorData
  pBase : AccessorData
  nBase : Option AccessorData
  tBase : Option AccessorData
  targets : List MorphTarget
deriving Repr, DecidableEq

/-- The base-attribute phase of the surface loop (lines 549-637, restricted
to the attributes the morph path uses): the POSITION accessor, then
optionally NORMAL and TANGENT.  Returns the state and the three base
accessors `(pAccBase, nAccBase, tAccBase)`. -/
def processSurfaceBases (s : SurfaceModel) (st : GltfState) :
    GltfState × AccessorData × Option AccessorData × Option AccessorData :=
  let pb := st.addAttributeAccessor GLT_VEC3F s.vertices.length "POSITION"
  let nb : GltfState × Option AccessorData :=
    if s.hasNormalAttr then
      let r := pb.1.addAttributeAccessor GLT_VEC3F s.vertices.length "NORMAL"
      (r.1, some r.2)
    else (pb.1, none)
  let tb : GltfState × Option AccessorData :=
    if s.hasTangentAttr then
      let r := nb.1.addAttributeAccessor GLT_VEC4F s.vertices.length "TANGENT"
      (r.1, some r.2)
    else (nb.1, none)
  (tb.1, pb.2, nb.2, tb.2)

/-- The per-surface body of the loop over `materialModels` (lines 475-777),
on the non-Draco path: index-width decision, indices accessor, base
attribute accessors, then the blend channels.  When the NORMAL attribute is
absent, `nAccBase` is a null pointer in the source and dereferencing it
(normals or tangents path) is undefined; the embedding then passes an
immaterial default. -/
def processSurface (o : GltfOptions) (s : SurfaceModel) (st : GltfState) : SurfaceResult :=
  let useLong := computeUseLongIndices o s.vertices.length
  let iv := st.getAlignedBufferView GL_ELEMENT_ARRAY_BUFFER
  let ir := iv.1.addAccessorWithView iv.2 (if useLong then GLT_UINT else GLT_USHORT)
    (.idx (if useLong then CT_UINT else CT_USHORT) (getIndexArray s)) ""
  let bases := processSurfaceBases s ir.1
  let ctx0 : MeshCtx := ⟨bases.1, none, none⟩
  let cr := processChannels o useLong bases.2.1 (bases.2.2.1.getD AccessorData.dflt) s.vertices
    ctx0 0 s.blendChannels
  { ctx := cr.1, useLong := useLong, indexAccessor := ir.2, pBase := bases.2.1,
    nBase := bases.2.2.1, tBase := bases.2.2.2, targets := cr.2 }

def MorphTarget.dflt : MorphTarget := ⟨AccessorData.dflt, none, none⟩

def RawBlendChannel.dflt : RawBlendChannel := ⟨"", false, false⟩

/-- Invariant of the lazily created dummy views (§4.7): when present, the
dummy index view holds exactly one zero index of the surface's index width,
the dummy data view exactly one zero `Vec3`; both are held views (stamped
index inside the holder range), and they are two distinct views. -/
def DummyInv (useLong : Bool) (ctx : MeshCtx) : Prop :=
  (∀ dv, ctx.dummyIdxView = some dv →
    dv.content = .idx (if useLong then CT_UINT else CT_USHORT) [0] ∧
    dv.ix < ctx.gltf.bufferViews.length) ∧
  (∀ vv, ctx.dummyDataView = some vv →
    vv.content = .vec3Arr [(0, 0, 0)] ∧
    vv.ix < ctx.gltf.bufferViews.length) ∧
  (∀ dv vv, ctx.dummyIdxView = some dv → ctx.dummyDataView = some vv → dv.ix ≠ vv.ix)

/-- No held accessor has an empty sparse substitution list. -/
def sparseOk (st : GltfState) : Prop :=
  ∀ a ∈ st.accessors, ∀ si, a.sparse = some si → 0 < si.count

/-- All sparse index data of a morph target uses the given component type. -/
def targetIdxCTOk (ct : Nat) (t : MorphTarget) : Prop :=
  (∀ si, t.p.sparse = some si → si.idxComponentType = ct) ∧
  (∀ a, t.n = some a → ∀ si, a.sparse = some si → si.idxComponentType = ct) ∧
  (∀ a, t.t = some a → ∀ si, a.sparse = some si → si.idxComponentType = ct)

/-! ## Materials (lines 231-473), PBR metal/rough output
(`options.usePBRMetRough = true`, `options.useKHRMatUnlit = false`) -/

inductive RawTextureUsage
  | normal
  | emissive
  | occlusion
  | metallic
  | roughness
  | shininess
  | albedo
  | diffuse
deriving Repr, DecidableEq

inductive RawShadingModel
  | blinn
  | phong
  | lambert
deriving Repr, DecidableEq

structure RawMetRoughMatProps where
  diffuseFactor : Vec4q
  metallic : Rat
  roughness : Rat
  emissiveFactor : Vec3q
  emissiveIntensity : Rat
  invertRoughnessMap : Bool
deriving Repr, DecidableEq

structure RawTraditionalMatProps where
  diffuseFactor : Vec4q
  shininess : Rat
  emissiveFactor : Vec3q
deriving Repr, DecidableEq

/-- `material.info`: the shading-model-specific property block.  The
`metRough` case corresponds to `shadingModel == RAW_SHADING_MODEL_PBR_MET_ROUGH`. -/
inductive RawMatInfo
  | metRough (props : RawMetRoughMatProps)
  | traditional (shadingModel : RawShadingModel) (props : RawTraditionalMatProps)

structure RawMaterialModel where
  name : String
  textures : RawTextureUsage → Int
  info : RawMatInfo

/-- Modelled from the spec (§4.5): the `TextureBuilder` collaborator
(`TextureBuilder.hpp` is not part of the source slice).  Results are
abstract glTF texture indices. -/
structure TextureBuilderModel where
  simple : Int → String → Option Nat
  combine : List Int → String → (List Vec4q → Vec4q) → Bool → Option Nat

/-- The `simpleTex` lambda of lines 240-244. -/
def simpleTex (tbm : TextureBuilderModel) (m : RawMaterialModel) (usage : RawTextureUsage) :
    Option Nat :=
  if m.textures usage ≥ 0 then tbm.simple (m.textures usage) "simple" else none

/-- `StringUtils::CompareNoCase a b == 0`. -/
def compareNoCaseEq (a b : String) : Bool := a.toLower == b.toLower

/-- The `texturesAreSame` lambda of lines 272-277; `fileLoc` gives
`raw.GetTexture(i).fileLocation`. -/
def texturesAreSame (fileLoc : Int → String) (m : RawMaterialModel)
    (a b : RawTextureUsage) : Bool :=
  compareNoCaseEq (fileLoc (m.textures a)) (fileLoc (m.textures b))

/-- Pixel component accessors: `(*pixels[i])[0]`, `[1]`, `[2]`. -/
def q4r (p : Vec4q) : Rat := p.1

def q4g (p : Vec4q) : Rat := p.2.1

def q4b (p : Vec4q) : Rat := p.2.2.1

/-- The default pixel used when the pixel vector is read out of range (the
source always passes exactly one pixel per source texture). -/
def neutralPixel : Vec4q := (1, 1, 1, 1)

/-- The occlusion/roughness/metallic combiner lambda of lines 332-348. -/
def metRoughCombiner (hasOcclusionMap hasRoughnessMap hasMetallicMap : Bool)
    (props : RawMetRoughMatProps) (pixels : List Vec4q) : Vec4q :=
  let occlusion := if hasOcclusionMap then q4r (pixels.getD 0 neutralPixel) else 1
  let roughness := q4g (pixels.getD 1 neutralPixel) * (if hasRoughnessMap then 1 else props.roughness)
  let metallic := q4b (pixels.getD 2 neutralPixel) * (if hasMetallicMap then 1 else props.metallic)
  (occlusion, if props.invertRoughnessMap then 1 - roughness else roughness, metallic, 1)

/-- A record of one `textureBuilder.combine` invocation. -/
structure CombineCall where
  sources : List Int
  tag : String
  combiner : List Vec4q → Vec4q
  srgb : Bool

/-- The `PBRMetallicRoughness` constructor arguments (line 422-423). -/
structure PBRMetallicRoughness where
  baseColorTex : Option Nat
  metRoughTex : Option Nat
  diffuseFactor : Vec4q
  metallic : Rat
  roughness : Rat

/-- What the material loop produces for one material, restricted to the
parts the PBR texture logic determines. -/
structure MaterialResult where
  pbr : PBRMetallicRoughness
  occlusionTexture : Option Nat
  combineCalls : List CombineCall
  aoMetRoughTex : Option Nat

/-- The `RAW_SHADING_MODEL_PBR_MET_ROUGH` branch of the material loop
(lines 257-367). -/
def resolveMetRough (tbm : TextureBuilderModel) (fileLoc : Int → String)
    (m : RawMaterialModel) (props : RawMetRoughMatProps) : MaterialResult :=
  let hasMetallicMap := decide (m.textures .metallic ≥ 0)
  let hasRoughnessMap := decide (m.textures .roughness ≥ 0)
  let hasOcclusionMap := decide (m.textures .occlusion ≥ 0)
  let isPassThroughTexture :=
    hasOcclusionMap && hasRoughnessMap && hasMetallicMap &&
      (texturesAreSame fileLoc m .metallic .roughness &&
        texturesAreSame fileLoc m .metallic .occlusion)
  if !(hasMetallicMap || hasRoughnessMap || hasOcclusionMap) then
    { pbr := ⟨simpleTex tbm m .albedo, none, props.diffuseFactor, props.metallic, props.roughness⟩,
      occlusionTexture := none, combineCalls := [], aoMetRoughTex := none }
  else if isPassThroughTexture then
    let aoMetRoughTex :=
      if hasMetallicMap then simpleTex tbm m .metallic
      else if hasRoughnessMap then simpleTex tbm m .roughness
      else if hasOcclusionMap then simpleTex tbm m .occlusion
      else none
    { pbr := ⟨simpleTex tbm m .albedo, aoMetRoughTex, props.diffuseFactor, props.metallic,
        props.roughness⟩,
      occlusionTexture := aoMetRoughTex, combineCalls := [], aoMetRoughTex := aoMetRoughTex }
  else
    let combiner := metRoughCombiner hasOcclusionMap hasRoughnessMap hasMetallicMap props
    let sources := [m.textures .occlusion, m.textures .roughness, m.textures .metallic]
    let aoMetRoughTex := tbm.combine sources "ao_met_rough" combiner false
    { pbr := ⟨simpleTex tbm m .albedo, aoMetRoughTex, props.diffuseFactor, props.metallic,
        props.roughness⟩,
      occlusionTexture := aoMetRoughTex,
      combineCalls := [⟨sources, "ao_met_rough", combiner, false⟩],
      aoMetRoughTex := aoMetRoughTex }

/-- The `getRoughness` lambda of line 388: `sqrtf(2.0f / (2.0f + shininess))`,
over an abstract square root. -/
def getRoughness (sqrtf : Rat → Rat) (shininess : Rat) : Rat := sqrtf (2 / (2 + shininess))

/-- The Blinn/Phong shininess combiner lambda of lines 395-401; the captured
`metallic` is 0.4 at the point of capture. -/
def blinnPhongCombiner (sqrtf : Rat → Rat) (props : RawTraditionalMatProps)
    (pixels : List Vec4q) : Vec4q :=
  let shininess := props.shininess * q4r (pixels.getD 0 neutralPixel)
  (0, getRoughness sqrtf shininess, 2 / 5, 1)

/-- The traditional-material branch of the material loop (lines 368-421). -/
def resolveTraditional (sqrtf : Rat → Rat) (tbm : TextureBuilderModel)
    (m : RawMaterialModel) (shadingModel : RawShadingModel)
    (props : RawTraditionalMatProps) : MaterialResult :=
  if shadingModel = .blinn ∨ shadingModel = .phong then
    let metallic : Rat := 2 / 5
    let combiner := blinnPhongCombiner sqrtf props
    let aoMetRoughTex := tbm.combine [m.textures .shininess] "ao_met_rough" combiner false
    let mr : Rat × Rat :=
      if aoMetRoughTex ≠ none then (1, 1)
      else (metallic, getRoughness sqrtf props.shininess)
    { pbr := ⟨simpleTex tbm m .diffuse, aoMetRoughTex, props.diffuseFactor, mr.1, mr.2⟩,
      occlusionTexture := none,
      combineCalls := [⟨[m.textures .shininess], "ao_met_rough", combiner, false⟩],
      aoMetRoughTex := aoMetRoughTex }
  else
    { pbr := ⟨simpleTex tbm m .diffuse, none, props.diffuseFactor, 1 / 5, 4 / 5⟩,
      occlusionTexture := none, combineCalls := [], aoMetRoughTex := none }

/-- The whole PBR met/rough material body for one material, including the
occlusion-texture fallback of lines 451-453. -/
def resolveMaterial (sqrtf : Rat → Rat) (tbm : TextureBuilderModel) (fileLoc : Int → String)
    (m : RawMaterialModel) : MaterialResult :=
  let r := match m.info with
    | .metRough props => resolveMetRough tbm fileLoc m props
    | .traditional sh props => resolveTraditional sqrtf tbm m sh props
  if r.occlusionTexture = none then { r with occlusionTexture := simpleTex tbm m .occlusion }
  else r

/-! ## Animations (lines 156-216) -/

structure RawChannelModel where
  nodeIndex : Nat
  translations : List Vec3q
  rotations : List Vec4q
  scales : List Vec3q
  weights : List Rat
deriving Repr, DecidableEq

structure RawAnimation where
  name : String
  times : List Rat
  channels : List RawChannelModel
deriving Repr, DecidableEq

/-- `*std::min_element(begin l, end l)` for a nonempty list (0 for the empty
list, on which the source expression is undefined). -/
def minElement : List Rat → Rat
  | [] => 0
  | x :: xs => xs.foldl min x

/-- `*std::max_element(begin l, end l)`, as `minElement`. -/
def maxElement : List Rat → Rat
  | [] => 0
  | x :: xs => xs.foldl max x

/-- One `AddNodeChannel` record: target node, target path, output accessor
holder index. -/
structure AnimChannelEntry where
  nodeIndex : Nat
  path : String
  outputIx : Nat
deriving Repr, DecidableEq

structure AnimationData where
  name : String
  inputIx : Nat
  channels : List AnimChannelEntry
deriving Repr, DecidableEq

/-- The holders and the diagnostics sink the animation loop touches. -/
structure AnimState where
  accessors : List AccessorData
  animations : List AnimationData
  messages : List String
deriving Repr, DecidableEq

/-- Modelled from the spec (§4.3): `AddAccessorAndView` holds an accessor of
the given type covering `c`. -/
def AnimState.addAccessorAndView (st : AnimState) (t : GltfType) (c : ViewContent) :
    AnimState × Nat :=
  let acc : AccessorData :=
    { ix := st.accessors.length, accType := t, count := c.elemCount, name := "", content := c }
  ({ st with accessors := st.accessors ++ [acc] }, acc.ix)

/-- The `accessor->min = ...; accessor->max = ...` assignments of
lines 168-169. -/
def AnimState.setAccessorMinMax (st : AnimState) (aIx : Nat) (minV maxV : List Rat) : AnimState :=
  let a := { st.accessors.getD aIx AccessorData.dflt with minVals := minV, maxVals := maxV }
  { st with accessors := st.accessors.set aIx a }

/-- The body of the channel loop (lines 179-215) for one channel: one output
accessor and one animation channel per non-empty component list. -/
def processAnimChannel (st : AnimState) (c : RawChannelModel) :
    AnimState × List AnimChannelEntry :=
  let rt : AnimState × List AnimChannelEntry :=
    if !c.translations.isEmpty then
      let r := st.addAccessorAndView GLT_VEC3F (.vec3Arr c.translations)
      (r.1, [⟨c.nodeIndex, "translation", r.2⟩])
    else (st, [])
  let rr : AnimState × List AnimChannelEntry :=
    if !c.rotations.isEmpty then
      let r := rt.1.addAccessorAndView GLT_QUATF (.vec4Arr c.rotations)
      (r.1, rt.2 ++ [⟨c.nodeIndex, "rotation", r.2⟩])
    else rt
  let rs : AnimState × List AnimChannelEntry :=
    if !c.scales.isEmpty then
      let r := rr.1.addAccessorAndView GLT_VEC3F (.vec3Arr c.scales)
      (r.1, rr.2 ++ [⟨c.nodeIndex, "scale", r.2⟩])
    else rr
  if !c.weights.isEmpty then
    let r := rs.1.addAccessorAndView ⟨CT_FLOAT, 1, "SCALAR"⟩ (.scalarArr c.weights)
    (r.1, rs.2 ++ [⟨c.nodeIndex, "weights", r.2⟩])
  else rs

/-- The channel loop of lines 179-215. -/
def processAnimChannels (st : AnimState) : List RawChannelModel → AnimState × List AnimChannelEntry
  | [] => (st, [])
  | c :: cs =>
    let r := processAnimChannel st c
    let rest := processAnimChannels r.1 cs
    (rest.1, r.2 ++ rest.2)

/-- The body of the animation loop (lines 156-216) for one animation: skip
(with a diagnostic) when there are no channels, otherwise create the shared
time accessor, set its min/max and process the channels. -/
def processAnimation (st : AnimState) (a : RawAnimation) : AnimState :=
  if a.channels.isEmpty then
    { st with messages :=
        st.messages ++ ["Animation \x27" ++ a.name ++ "\x27 has no channels, skipped\n"] }
  else
    let r1 := st.addAccessorAndView GLT_FLOAT (.scalarArr a.times)
    let st2 := r1.1.setAccessorMinMax r1.2 [minElement a.times] [maxElement a.times]
    let r2 := processAnimChannels st2 a.channels
    { r2.1 with animations := r2.1.animations ++ [⟨a.name, r1.2, r2.2⟩] }

/-- The animation loop over all animations. -/
def processAnimations (st : AnimState) : List RawAnimation → AnimState
  | [] => st
  | a :: as' => processAnimations (processAnimation st a) as'

/-! ## Nodes, cameras, meshes-to-nodes, lights
(lines 132-150, 823-835, 880-947) -/

structure RawNodeModel where
  id : Int
  name : String
  translation : Vec3q
  rotation : Vec4q
  scale : Vec3q
  isJoint : Bool
  surfaceId : Int
  lightIx : Int
deriving Repr, DecidableEq

structure NodeData where
  ix : Nat
  name : String
  translation : Vec3q
  rotation : Vec4q
  scale : Vec3q
  isJoint : Bool
  mesh : Option Nat := none
  camera : Option Nat := none
  light : Option Nat := none
deriving Repr, DecidableEq

def NodeData.dflt : NodeData :=
  { ix := 0, name := "", translation := (0, 0, 0), rotation := (0, 0, 0, 1),
    scale := (1, 1, 1), isJoint := false }

def RawNodeModel.dflt : RawNodeModel :=
  { id := 0, name := "", translation := (0, 0, 0), rotation := (0, 0, 0, 1),
    scale := (1, 1, 1), isJoint := false, surfaceId := -1, lightIx := -1 }

/-- Generic holder population: append entities in iteration order, stamping
each with its dense index (spec §4.4 / §3.2). -/
def holdFold (mk : Nat → α → β) (raws : List α) : List β :=
  raws.foldl (fun acc x => acc ++ [mk acc.length x]) []

/-- The `NodeData` constructed at lines 136-137 for one raw node. -/
def mkNodeData (ix : Nat) (n : RawNodeModel) : NodeData :=
  { ix := ix, name := n.name, translation := n.translation, rotation := n.rotation,
    scale := n.scale, isJoint := n.isJoint }

/-- The node loop of lines 132-150 (children and user properties omitted). -/
def raw2GltfNodes (raws : List RawNodeModel) : List NodeData :=
  holdFold mkNodeData raws

/-- The `nodesById` map filled at line 149 (a `std::map` insert keeps the
first binding of a key, as `List.lookup` finds the first). -/
def nodesByIdOf (raws : List RawNodeModel) : List (Int × Nat) :=
  holdFold (fun i n => (n.id, i)) raws

/-- The mesh-to-node assignment loop of lines 823-835 (skins omitted):
`meshBySurfaceId` maps a surface id to the held mesh's index.  A failed
`require` lookup aborts the source via `assert`; the embedding then leaves
`none`. -/
def attachMeshes (raws : List RawNodeModel) (meshBySurfaceId : List (Int × Nat))
    (nodes : List NodeData) : List NodeData :=
  (List.range raws.length).foldl
    (fun nds i =>
      let node := raws.getD i RawNodeModel.dflt
      if node.surfaceId > 0 then
        nds.set i ({ nds.getD i NodeData.dflt with mesh := meshBySurfaceId.lookup node.surfaceId })
      else nds)
    nodes

structure RawLightModel where
  name : String
  color : Vec3q
  intensity : Rat
deriving Repr, DecidableEq

structure LightData where
  ix : Nat
  name : String
  color : Vec3q
  intensity : Rat
deriving Repr, DecidableEq

/-- The light holder population of lines 913-937 (`useKHRLightsPunctual`
enabled): one `LightData` per raw light, in order, intensity scaled by
1/100. -/
def buildLights (rawLights : List RawLightModel) : List LightData :=
  holdFold (fun i l => ⟨i, l.name, l.color, l.intensity / 100⟩) rawLights

/-- The light-to-node attachment loop of lines 938-946: `node.lightIx` is
used directly as the glTF light index. -/
def attachLights (raws : List RawNodeModel) (nodes : List NodeData) : List NodeData :=
  (List.range raws.length).foldl
    (fun nds i =>
      let node := raws.getD i RawNodeModel.dflt
      if node.lightIx ≥ 0 then
        nds.set i ({ nds.getD i NodeData.dflt with light := some node.lightIx.toNat })
      else nds)
    nodes

/-- The node pipeline relevant to cross-referencing: build the node holder,
then assign meshes, then lights. -/
def nodePipeline (raws : List RawNodeModel) (meshBySurfaceId : List (Int × Nat)) :
    List NodeData :=
  attachLights raws (attachMeshes raws meshBySurfaceId (raw2GltfNodes raws))

/-! ## Cameras (lines 880-906) -/

structure RawCameraModel where
  name : String
  nodeId : Int
deriving Repr, DecidableEq

structure CameraEntry where
  ix : Nat
  name : String
deriving Repr, DecidableEq

/-- The body of the camera loop for one camera: the camera entity is held
first; if `nodeId` is unknown a warning is printed and the camera is not
attached (projection parameters omitted). -/
def processCamera (nodesById : List (Int × Nat)) (cam : RawCameraModel)
    (nodes : List NodeData) (cams : List CameraEntry) (msgs : List String) :
    List NodeData × List CameraEntry × List String :=
  let camera : CameraEntry := ⟨cams.length, cam.name⟩
  let cams2 := cams ++ [camera]
  match nodesById.lookup cam.nodeId with
  | none =>
    (nodes, cams2, msgs ++ ["Warning: Camera node id " ++ toString cam.nodeId ++
      " does not exist.\n"])
  | some nIx =>
    (nodes.set nIx ({ nodes.getD nIx NodeData.dflt with camera := some camera.ix }), cams2, msgs)

/-- The camera loop of lines 880-906. -/
def processCameras (nodesById : List (Int × Nat)) (cams : List RawCameraModel)
    (nodes : List NodeData) : List NodeData × List CameraEntry × List String :=
  cams.foldl (fun acc cam => processCamera nodesById cam acc.1 acc.2.1 acc.2.2) (nodes, [], [])

/-! ## Concrete inputs used by the witness theorems -/

def oW : GltfOptions := ⟨UseLongIndicesOptions.NEVER, false, false, false⟩

def sW : SurfaceModel :=
  ⟨[⟨[BlendVertex.zero]⟩], [(0, 0, 0)], [⟨"shape", false, false⟩], false, false⟩

def stW : GltfState := ⟨[], []⟩

def o8W : GltfOptions := ⟨UseLongIndicesOptions.NEVER, false, false, true⟩

def o9W : GltfOptions := ⟨UseLongIndicesOptions.NEVER, true, false, true⟩

def tbmW : TextureBuilderModel := ⟨fun _ _ => some 1, fun _ _ _ _ => some 7⟩

def fileLocW : Int → String := fun _ => ""

def sqrtfW : Rat → Rat := fun q => if q = 1 / 4 then 1 / 2 else 0

def propsW : RawMetRoughMatProps := ⟨(1, 1, 1, 1), 1 / 2, 1 / 3, (0, 0, 0), 1, false⟩

def mW : RawMaterialModel :=
  ⟨"mat", fun u => if u = RawTextureUsage.metallic then 0 else -1,
    RawMatInfo.metRough propsW⟩

def animDflt : AnimationData := ⟨"", 0, []⟩

def stA : AnimState := ⟨[], [], []⟩

def aC6 : RawAnimation := ⟨"walk", [3, 1, 2], [⟨0, [(0, 0, 0)], [], [], []⟩]⟩

def aC7 : RawAnimation := ⟨"empty", [0], []⟩

def camW : RawCameraModel := ⟨"cam", 5⟩

def nodeW : RawNodeModel :=
  { id := 1, name := "n0", translation := (0, 0, 0), rotation := (0, 0, 0, 1),
    scale := (1, 1, 1), isJoint := false, surfaceId := 2, lightIx := 0 }

def mbsW : List (Int × Nat) := [(2, 5)]

/-- The diagnostics prefix convention of the spec: a warning message starts
with the text "Warning:". -/
def startsWithWarning (msg : String) : Prop :=
  ∃ rest, msg.data = ("Warning:").data ++ rest

/-- `st2` extends `st1`: the accessor holder of `st2` begins with all the
accessors of `st1`. -/
def ExtendsA (st2 st1 : AnimState) : Prop := ∃ tl, st2.accessors = st1.accessors ++ tl

def s8W : SurfaceModel :=
  ⟨[⟨[⟨(1, 0, 0), (0, 0, 0), (1, 0, 0, 0)⟩]⟩], [(0, 0, 0)], [⟨"t", false, true⟩], true, true⟩

/-! # Theorems

## Stream lemmas for the .glb writer -/

theorem putByte_append (s : OStream) (b : Nat) (h : s.pos = s.data.length) :
    s.putByte b = ⟨s.data ++ [b], s.pos + 1⟩ := by
  simp [OStream.putByte, h]

theorem writeBytes_append (bs : List Nat) : ∀ (s : OStream), s.pos = s.data.length →
    s.writeBytes bs = ⟨s.data ++ bs, s.pos + bs.length⟩ := by
  induction bs with
  | nil => intro s h; simp [OStream.writeBytes]
  | cons b rest ih =>
    intro s h
    show (s.putByte b).writeBytes rest = _
    rw [putByte_append s b h]
    rw [ih ⟨s.data ++ [b], s.pos + 1⟩ (by simp [h])]
    simp [List.append_assoc]
    omega

theorem padLoop_append (b : Nat) : ∀ (k n : Nat) (s : OStream),
    (4 - n % 4) % 4 = k → s.pos = s.data.length →
    padLoop s n b = (⟨s.data ++ List.replicate k b, s.pos + k⟩, n + k) := by
  intro k
  induction k with
  | zero =>
    intro n s hk h
    have hn : n % 4 = 0 := by omega
    rw [padLoop]
    simp [hn]
  | succ k ih =>
    intro n s hk h
    have hn : ¬n % 4 = 0 := by omega
    rw [padLoop]
    simp only [hn, if_false]
    have hk2 : (4 - (n + 1) % 4) % 4 = k := by omega
    rw [putByte_append s b h]
    rw [ih (n + 1) ⟨s.data ++ [b], s.pos + 1⟩ hk2 (by simp [h])]
    simp [List.replicate_succ, List.append_assoc]
    omega

theorem writeBytes_overwrite (bs : List Nat) : ∀ (s : OStream),
    s.pos + bs.length ≤ s.data.length →
    s.writeBytes bs =
      ⟨s.data.take s.pos ++ bs ++ s.data.drop (s.pos + bs.length), s.pos + bs.length⟩ := by
  induction bs with
  | nil =>
    intro s h
    show s = _
    simp
  | cons b rest ih =>
    intro s h
    have hlen : rest.length + 1 = (b :: rest).length := by simp
    have hlt : s.pos < s.data.length := by
      have := h; simp at this; omega
    have hpb : s.putByte b = ⟨s.data.set s.pos b, s.pos + 1⟩ := by
      simp [OStream.putByte, hlt]
    show (s.putByte b).writeBytes rest = _
    rw [hpb]
    rw [ih ⟨s.data.set s.pos b, s.pos + 1⟩ (by simp; omega)]
    have hset : s.data.set s.pos b = s.data.take s.pos ++ b :: s.data.drop (s.pos + 1) :=
      List.set_eq_take_cons_drop b hlt
    have htk : (s.data.set s.pos b).take (s.pos + 1) = s.data.take s.pos ++ [b] := by
      rw [hset, List.take_append_eq_append_take]
      have h1 : (s.data.take s.pos).length = s.pos := by
        rw [List.length_take]; omega
      rw [List.take_of_length_le (by omega), h1]
      simp
    have hdr : ∀ q, s.pos + 1 ≤ q → (s.data.set s.pos b).drop q = s.data.drop q := by
      intro q hq
      rw [hset, List.drop_append_eq_append_drop]
      have h1 : (s.data.take s.pos).length = s.pos := by
        rw [List.length_take]; omega
      rw [List.drop_of_length_le (by omega), h1]
      obtain ⟨m, hm⟩ : ∃ m, q - s.pos = m + 1 := ⟨q - s.pos - 1, by omega⟩
      rw [List.nil_append, hm, List.drop_succ_cons, List.drop_drop]
      congr 1
      omega
    rw [htk, hdr (s.pos + 1 + rest.length) (by omega)]
    simp [List.append_assoc]
    constructor
    · congr 1
      omega
    · omega

theorem length_patch (l bs : List Nat) (p : Nat) (hp : p + bs.length ≤ l.length) :
    (l.take p ++ bs ++ l.drop (p + bs.length)).length = l.length := by
  simp [List.length_take, List.length_drop]
  omega

theorem slice_patch_left (l bs : List Nat) (p q k : Nat) (hp : p ≤ l.length)
    (h2 : q + k ≤ p) :
    ((l.take p ++ bs ++ l.drop (p + bs.length)).drop q).take k = (l.drop q).take k := by
  rw [List.append_assoc, List.drop_append_eq_append_drop, List.take_append_eq_append_take]
  have h1 : (l.take p).length = p := by rw [List.length_take]; omega
  have h3 : ((l.take p).drop q).length = p - q := by simp [h1]
  rw [h3]
  have h4 : k - (p - q) = 0 := by omega
  rw [h4, List.take_zero, List.append_nil, List.drop_take, List.take_take]
  congr 1
  omega

theorem drop_patch_at (l bs : List Nat) (p : Nat) (hp : p ≤ l.length) :
    (l.take p ++ bs ++ l.drop (p + bs.length)).drop p = bs ++ l.drop (p + bs.length) := by
  rw [List.append_assoc, List.drop_append_eq_append_drop]
  have h1 : (l.take p).length = p := by rw [List.length_take]; omega
  rw [List.drop_of_length_le (by omega), h1]
  simp

theorem slice_patch_at (l bs : List Nat) (p : Nat) (hp : p ≤ l.length) :
    ((l.take p ++ bs ++ l.drop (p + bs.length)).drop p).take bs.length = bs := by
  rw [drop_patch_at l bs p hp]
  exact List.take_left bs _

theorem drop_patch_right (l bs : List Nat) (p q : Nat) (hp : p ≤ l.length)
    (h2 : p + bs.length ≤ q) :
    (l.take p ++ bs ++ l.drop (p + bs.length)).drop q = l.drop q := by
  rw [List.append_assoc, List.drop_append_eq_append_drop]
  have h1 : (l.take p).length = p := by rw [List.length_take]; omega
  rw [List.drop_of_length_le (by omega), h1, List.nil_append,
    List.drop_append_eq_append_drop]
  rw [List.drop_of_length_le (by omega), List.drop_drop]
  rw [List.nil_append]
  congr 1
  omega

theorem le32_length (x : Nat) : (le32 x).length = 4 := rfl

theorem length_patchq (l bs : List Nat) (p q : Nat) (hq : q = p + bs.length)
    (hp : q ≤ l.length) :
    (l.take p ++ bs ++ l.drop q).length = l.length := by
  subst hq
  exact length_patch l bs p hp

theorem slice_patchq_left (l bs : List Nat) (p q j k : Nat) (hq : q = p + bs.length)
    (hjk : j + k ≤ p) (hp : p ≤ l.length) :
    ((l.take p ++ bs ++ l.drop q).drop j).take k = (l.drop j).take k := by
  subst hq
  exact slice_patch_left l bs p j k hp hjk

theorem slice_patchq_right (l bs : List Nat) (p q j k : Nat) (hq : q = p + bs.length)
    (hj : q ≤ j) (hp : p ≤ l.length) :
    ((l.take p ++ bs ++ l.drop q).drop j).take k = (l.drop j).take k := by
  subst hq
  rw [drop_patch_right l bs p j hp hj]

theorem slice_patchq_at (l bs : List Nat) (p q k : Nat) (hq : q = p + bs.length)
    (hk : k = bs.length) (hp : p ≤ l.length) :
    ((l.take p ++ bs ++ l.drop q).drop p).take k = bs := by
  subst hq
  subst hk
  exact slice_patch_at l bs p hp

theorem take_patchq_left (l bs : List Nat) (p q k : Nat) (hq : q = p + bs.length)
    (hk : k ≤ p) (hp : p ≤ l.length) :
    (l.take p ++ bs ++ l.drop q).take k = l.take k := by
  subst hq
  have h := slice_patch_left l bs p 0 k hp (by omega)
  rw [List.drop_zero, List.drop_zero] at h
  exact h

set_option maxHeartbeats 2000000 in
theorem writeBinaryGlb_eq (jsonBytes binBytes : List Nat) :
    writeBinaryGlb jsonBytes binBytes = glbExpected jsonBytes binBytes := by
  have h1 : OStream.writeBytes ⟨[], 0⟩ [103, 108, 84, 70, 2, 0, 0, 0, 0, 0, 0, 0] =
      ⟨[103, 108, 84, 70, 2, 0, 0, 0, 0, 0, 0, 0], 12⟩ := by
    rw [writeBytes_append _ _ rfl]
    try rfl
  have h2 : OStream.writeBytes ⟨[103, 108, 84, 70, 2, 0, 0, 0, 0, 0, 0, 0], 12⟩
      [0, 0, 0, 0, 74, 83, 79, 78] =
      ⟨[103, 108, 84, 70, 2, 0, 0, 0, 0, 0, 0, 0] ++ [0, 0, 0, 0, 74, 83, 79, 78], 20⟩ := by
    rw [writeBytes_append _ _ rfl]
    try rfl
  have h3 : OStream.writeBytes
      ⟨[103, 108, 84, 70, 2, 0, 0, 0, 0, 0, 0, 0] ++ [0, 0, 0, 0, 74, 83, 79, 78], 20⟩
      jsonBytes =
      ⟨[103, 108, 84, 70, 2, 0, 0, 0, 0, 0, 0, 0] ++ [0, 0, 0, 0, 74, 83, 79, 78] ++
        jsonBytes, 20 + jsonBytes.length⟩ := by
    rw [writeBytes_append _ _ rfl]
    try rfl
  have h4 : padLoop
      ⟨[103, 108, 84, 70, 2, 0, 0, 0, 0, 0, 0, 0] ++ [0, 0, 0, 0, 74, 83, 79, 78] ++
        jsonBytes, 20 + jsonBytes.length⟩ jsonBytes.length 32 =
      (⟨[103, 108, 84, 70, 2, 0, 0, 0, 0, 0, 0, 0] ++ [0, 0, 0, 0, 74, 83, 79, 78] ++
          jsonBytes ++ List.replicate ((4 - jsonBytes.length % 4) % 4) 32,
        20 + jsonBytes.length + (4 - jsonBytes.length % 4) % 4⟩,
       jsonBytes.length + (4 - jsonBytes.length % 4) % 4) := by
    rw [padLoop_append 32 ((4 - jsonBytes.length % 4) % 4) jsonBytes.length _ rfl
      (by simp only [List.length_append, List.length_cons, List.length_nil]; try omega)]
    try rfl
  have h5 : OStream.writeBytes
      ⟨[103, 108, 84, 70, 2, 0, 0, 0, 0, 0, 0, 0] ++ [0, 0, 0, 0, 74, 83, 79, 78] ++
        jsonBytes ++ List.replicate ((4 - jsonBytes.length % 4) % 4) 32,
        20 + jsonBytes.length + (4 - jsonBytes.length % 4) % 4⟩
      [0, 0, 0, 0, 66, 73, 78, 0] =
      ⟨[103, 108, 84, 70, 2, 0, 0, 0, 0, 0, 0, 0] ++ [0, 0, 0, 0, 74, 83, 79, 78] ++
        jsonBytes ++ List.replicate ((4 - jsonBytes.length % 4) % 4) 32 ++
        [0, 0, 0, 0, 66, 73, 78, 0],
        20 + jsonBytes.length + (4 - jsonBytes.length % 4) % 4 + 8⟩ := by
    rw [writeBytes_append _ _
      (by simp only [List.length_append, List.length_cons, List.length_nil,
            List.length_replicate]; try omega)]
    try rfl
  have h6 : OStream.writeBytes
      ⟨[103, 108, 84, 70, 2, 0, 0, 0, 0, 0, 0, 0] ++ [0, 0, 0, 0, 74, 83, 79, 78] ++
        jsonBytes ++ List.replicate ((4 - jsonBytes.length % 4) % 4) 32 ++
        [0, 0, 0, 0, 66, 73, 78, 0],
        20 + jsonBytes.length + (4 - jsonBytes.length % 4) % 4 + 8⟩ binBytes =
      ⟨[103, 108, 84, 70, 2, 0, 0, 0, 0, 0, 0, 0] ++ [0, 0, 0, 0, 74, 83, 79, 78] ++
        jsonBytes ++ List.replicate ((4 - jsonBytes.length % 4) % 4) 32 ++
        [0, 0, 0, 0, 66, 73, 78, 0] ++ binBytes,
        20 + jsonBytes.length + (4 - jsonBytes.length % 4) % 4 + 8 + binBytes.length⟩ := by
    rw [writeBytes_append _ _
      (by simp only [List.length_append, List.length_cons, List.length_nil,
            List.length_replicate]; try omega)]
    try rfl
  have h7 : padLoop
      ⟨[103, 108, 84, 70, 2, 0, 0, 0, 0, 0, 0, 0] ++ [0, 0, 0, 0, 74, 83, 79, 78] ++
        jsonBytes ++ List.replicate ((4 - jsonBytes.length % 4) % 4) 32 ++
        [0, 0, 0, 0, 66, 73, 78, 0] ++ binBytes,
        20 + jsonBytes.length + (4 - jsonBytes.length % 4) % 4 + 8 + binBytes.length⟩
      binBytes.length 0 =
      (⟨[103, 108, 84, 70, 2, 0, 0, 0, 0, 0, 0, 0] ++ [0, 0, 0, 0, 74, 83, 79, 78] ++
          jsonBytes ++ List.replicate ((4 - jsonBytes.length % 4) % 4) 32 ++
          [0, 0, 0, 0, 66, 73, 78, 0] ++ binBytes ++
          List.replicate ((4 - binBytes.length % 4) % 4) 0,
        20 + jsonBytes.length + (4 - jsonBytes.length % 4) % 4 + 8 + binBytes.length +
          (4 - binBytes.length % 4) % 4⟩,
       binBytes.length + (4 - binBytes.length % 4) % 4) := by
    rw [padLoop_append 0 ((4 - binBytes.length % 4) % 4) binBytes.length _ rfl
      (by simp only [List.length_append, List.length_cons, List.length_nil,
            List.length_replicate]; try omega)]
    try rfl
  have h8 : OStream.writeBytes ⟨[103, 108, 84, 70, 2, 0, 0, 0, 0, 0, 0, 0] ++ [0, 0, 0, 0, 74, 83, 79, 78] ++ jsonBytes ++ List.replicate ((4 - jsonBytes.length % 4) % 4) 32 ++ [0, 0, 0, 0, 66, 73, 78, 0] ++ binBytes ++ List.replicate ((4 - binBytes.length % 4) % 4) 0, 8⟩ (le32 (20 + jsonBytes.length + (4 - jsonBytes.length % 4) % 4 + 8 + binBytes.length + (4 - binBytes.length % 4) % 4)) =
      ⟨([103, 108, 84, 70, 2, 0, 0, 0, 0, 0, 0, 0] ++ [0, 0, 0, 0, 74, 83, 79, 78] ++ jsonBytes ++ List.replicate ((4 - jsonBytes.length % 4) % 4) 32 ++ [0, 0, 0, 0, 66, 73, 78, 0] ++ binBytes ++ List.replicate ((4 - binBytes.length % 4) % 4) 0).take 8 ++ le32 (20 + jsonBytes.length + (4 - jsonBytes.length % 4) % 4 + 8 + binBytes.length + (4 - binBytes.length % 4) % 4) ++ ([103, 108, 84, 70, 2, 0, 0, 0, 0, 0, 0, 0] ++ [0, 0, 0, 0, 74, 83, 79, 78] ++ jsonBytes ++ List.replicate ((4 - jsonBytes.length % 4) % 4) 32 ++ [0, 0, 0, 0, 66, 73, 78, 0] ++ binBytes ++ List.replicate ((4 - binBytes.length % 4) % 4) 0).drop 12, 12⟩ := by
    rw [writeBytes_overwrite _ _
      (by simp only [le32, List.length_append, List.length_cons, List.length_nil, List.length_replicate, List.length_take, List.length_drop]; try omega), le32_length]
    try rfl
  have h9 : OStream.writeBytes ⟨([103, 108, 84, 70, 2, 0, 0, 0, 0, 0, 0, 0] ++ [0, 0, 0, 0, 74, 83, 79, 78] ++ jsonBytes ++ List.replicate ((4 - jsonBytes.length % 4) % 4) 32 ++ [0, 0, 0, 0, 66, 73, 78, 0] ++ binBytes ++ List.replicate ((4 - binBytes.length % 4) % 4) 0).take 8 ++ le32 (20 + jsonBytes.length + (4 - jsonBytes.length % 4) % 4 + 8 + binBytes.length + (4 - binBytes.length % 4) % 4) ++ ([103, 108, 84, 70, 2, 0, 0, 0, 0, 0, 0, 0] ++ [0, 0, 0, 0, 74, 83, 79, 78] ++ jsonBytes ++ List.replicate ((4 - jsonBytes.length % 4) % 4) 32 ++ [0, 0, 0, 0, 66, 73, 78, 0] ++ binBytes ++ List.replicate ((4 - binBytes.length % 4) % 4) 0).drop 12, 12⟩ (le32 (jsonBytes.length + (4 - jsonBytes.length % 4) % 4)) =
      ⟨(([103, 108, 84, 70, 2, 0, 0, 0, 0, 0, 0, 0] ++ [0, 0, 0, 0, 74, 83, 79, 78] ++ jsonBytes ++ List.replicate ((4 - jsonBytes.length % 4) % 4) 32 ++ [0, 0, 0, 0, 66, 73, 78, 0] ++ binBytes ++ List.replicate ((4 - binBytes.length % 4) % 4) 0).take 8 ++ le32 (20 + jsonBytes.length + (4 - jsonBytes.length % 4) % 4 + 8 + binBytes.length + (4 - binBytes.length % 4) % 4) ++ ([103, 108, 84, 70, 2, 0, 0, 0, 0, 0, 0, 0] ++ [0, 0, 0, 0, 74, 83, 79, 78] ++ jsonBytes ++ List.replicate ((4 - jsonBytes.length % 4) % 4) 32 ++ [0, 0, 0, 0, 66, 73, 78, 0] ++ binBytes ++ List.replicate ((4 - binBytes.length % 4) % 4) 0).drop 12).take 12 ++ le32 (jsonBytes.length + (4 - jsonBytes.length % 4) % 4) ++ (([103, 108, 84, 70, 2, 0, 0, 0, 0, 0, 0, 0] ++ [0, 0, 0, 0, 74, 83, 79, 78] ++ jsonBytes ++ List.replicate ((4 - jsonBytes.length % 4) % 4) 32 ++ [0, 0, 0, 0, 66, 73, 78, 0] ++ binBytes ++ List.replicate ((4 - binBytes.length % 4) % 4) 0).take 8 ++ le32 (20 + jsonBytes.length + (4 - jsonBytes.length % 4) % 4 + 8 + binBytes.length + (4 - binBytes.length % 4) % 4) ++ ([103, 108, 84, 70, 2, 0, 0, 0, 0, 0, 0, 0] ++ [0, 0, 0, 0, 74, 83, 79, 78] ++ jsonBytes ++ List.replicate ((4 - jsonBytes.length % 4) % 4) 32 ++ [0, 0, 0, 0, 66, 73, 78, 0] ++ binBytes ++ List.replicate ((4 - binBytes.length % 4) % 4) 0).drop 12).drop 16, 16⟩ := by
    rw [writeBytes_overwrite _ _
      (by simp only [le32, List.length_append, List.length_cons, List.length_nil, List.length_replicate, List.length_take, List.length_drop]; try omega), le32_length]
    try rfl
  have h10 : OStream.writeBytes ⟨(([103, 108, 84, 70, 2, 0, 0, 0, 0, 0, 0, 0] ++ [0, 0, 0, 0, 74, 83, 79, 78] ++ jsonBytes ++ List.replicate ((4 - jsonBytes.length % 4) % 4) 32 ++ [0, 0, 0, 0, 66, 73, 78, 0] ++ binBytes ++ List.replicate ((4 - binBytes.length % 4) % 4) 0).take 8 ++ le32 (20 + jsonBytes.length + (4 - jsonBytes.length % 4) % 4 + 8 + binBytes.length + (4 - binBytes.length % 4) % 4) ++ ([103, 108, 84, 70, 2, 0, 0, 0, 0, 0, 0, 0] ++ [0, 0, 0, 0, 74, 83, 79, 78] ++ jsonBytes ++ List.replicate ((4 - jsonBytes.length % 4) % 4) 32 ++ [0, 0, 0, 0, 66, 73, 78, 0] ++ binBytes ++ List.replicate ((4 - binBytes.length % 4) % 4) 0).drop 12).take 12 ++ le32 (jsonBytes.length + (4 - jsonBytes.length % 4) % 4) ++ (([103, 108, 84, 70, 2, 0, 0, 0, 0, 0, 0, 0] ++ [0, 0, 0, 0, 74, 83, 79, 78] ++ jsonBytes ++ List.replicate ((4 - jsonBytes.length % 4) % 4) 32 ++ [0, 0, 0, 0, 66, 73, 78, 0] ++ binBytes ++ List.replicate ((4 - binBytes.length % 4) % 4) 0).take 8 ++ le32 (20 + jsonBytes.length + (4 - jsonBytes.length % 4) % 4 + 8 + binBytes.length + (4 - binBytes.length % 4) % 4) ++ ([103, 108, 84, 70, 2, 0, 0, 0, 0, 0, 0, 0] ++ [0, 0, 0, 0, 74, 83, 79, 78] ++ jsonBytes ++ List.replicate ((4 - jsonBytes.length % 4) % 4) 32 ++ [0, 0, 0, 0, 66, 73, 78, 0] ++ binBytes ++ List.replicate ((4 - binBytes.length % 4) % 4) 0).drop 12).drop 16, 20 + jsonBytes.length + (4 - jsonBytes.length % 4) % 4⟩ (le32 (binBytes.length + (4 - binBytes.length % 4) % 4)) =
      ⟨((([103, 108, 84, 70, 2, 0, 0, 0, 0, 0, 0, 0] ++ [0, 0, 0, 0, 74, 83, 79, 78] ++ jsonBytes ++ List.replicate ((4 - jsonBytes.length % 4) % 4) 32 ++ [0, 0, 0, 0, 66, 73, 78, 0] ++ binBytes ++ List.replicate ((4 - binBytes.length % 4) % 4) 0).take 8 ++ le32 (20 + jsonBytes.length + (4 - jsonBytes.length % 4) % 4 + 8 + binBytes.length + (4 - binBytes.length % 4) % 4) ++ ([103, 108, 84, 70, 2, 0, 0, 0, 0, 0, 0, 0] ++ [0, 0, 0, 0, 74, 83, 79, 78] ++ jsonBytes ++ List.replicate ((4 - jsonBytes.length % 4) % 4) 32 ++ [0, 0, 0, 0, 66, 73, 78, 0] ++ binBytes ++ List.replicate ((4 - binBytes.length % 4) % 4) 0).drop 12).take 12 ++ le32 (jsonBytes.length + (4 - jsonBytes.length % 4) % 4) ++ (([103, 108, 84, 70, 2, 0, 0, 0, 0, 0, 0, 0] ++ [0, 0, 0, 0, 74, 83, 79, 78] ++ jsonBytes ++ List.replicate ((4 - jsonBytes.length % 4) % 4) 32 ++ [0, 0, 0, 0, 66, 73, 78, 0] ++ binBytes ++ List.replicate ((4 - binBytes.length % 4) % 4) 0).take 8 ++ le32 (20 + jsonBytes.length + (4 - jsonBytes.length % 4) % 4 + 8 + binBytes.length + (4 - binBytes.length % 4) % 4) ++ ([103, 108, 84, 70, 2, 0, 0, 0, 0, 0, 0, 0] ++ [0, 0, 0, 0, 74, 83, 79, 78] ++ jsonBytes ++ List.replicate ((4 - jsonBytes.length % 4) % 4) 32 ++ [0, 0, 0, 0, 66, 73, 78, 0] ++ binBytes ++ List.replicate ((4 - binBytes.length % 4) % 4) 0).drop 12).drop 16).take (20 + jsonBytes.length + (4 - jsonBytes.length % 4) % 4) ++ le32 (binBytes.length + (4 - binBytes.length % 4) % 4) ++ ((([103, 108, 84, 70, 2, 0, 0, 0, 0, 0, 0, 0] ++ [0, 0, 0, 0, 74, 83, 79, 78] ++ jsonBytes ++ List.replicate ((4 - jsonBytes.length % 4) % 4) 32 ++ [0, 0, 0, 0, 66, 73, 78, 0] ++ binBytes ++ List.replicate ((4 - binBytes.length % 4) % 4) 0).take 8 ++ le32 (20 + jsonBytes.length + (4 - jsonBytes.length % 4) % 4 + 8 + binBytes.length + (4 - binBytes.length % 4) % 4) ++ ([103, 108, 84, 70, 2, 0, 0, 0, 0, 0, 0, 0] ++ [0, 0, 0, 0, 74, 83, 79, 78] ++ jsonBytes ++ List.replicate ((4 - jsonBytes.length % 4) % 4) 32 ++ [0, 0, 0, 0, 66, 73, 78, 0] ++ binBytes ++ List.replicate ((4 - binBytes.length % 4) % 4) 0).drop 12).take 12 ++ le32 (jsonBytes.length + (4 - jsonBytes.length % 4) % 4) ++ (([103, 108, 84, 70, 2, 0, 0, 0, 0, 0, 0, 0] ++ [0, 0, 0, 0, 74, 83, 79, 78] ++ jsonBytes ++ List.replicate ((4 - jsonBytes.length % 4) % 4) 32 ++ [0, 0, 0, 0, 66, 73, 78, 0] ++ binBytes ++ List.replicate ((4 - binBytes.length % 4) % 4) 0).take 8 ++ le32 (20 + jsonBytes.length + (4 - jsonBytes.length % 4) % 4 + 8 + binBytes.length + (4 - binBytes.length % 4) % 4) ++ ([103, 108, 84, 70, 2, 0, 0, 0, 0, 0, 0, 0] ++ [0, 0, 0, 0, 74, 83, 79, 78] ++ jsonBytes ++ List.replicate ((4 - jsonBytes.length % 4) % 4) 32 ++ [0, 0, 0, 0, 66, 73, 78, 0] ++ binBytes ++ List.replicate ((4 - binBytes.length % 4) % 4) 0).drop 12).drop 16).drop (20 + jsonBytes.length + (4 - jsonBytes.length % 4) % 4 + 4), 20 + jsonBytes.length + (4 - jsonBytes.length % 4) % 4 + 4⟩ := by
    rw [writeBytes_overwrite _ _
      (by simp only [le32, List.length_append, List.length_cons, List.length_nil, List.length_replicate, List.length_take, List.length_drop]; try omega), le32_length]
    try rfl
  simp only [writeBinaryGlb, glbExpected, OStream.tellp, OStream.seekp, OStream.seekEnd]
  rw [h1, h2, h3]
  try dsimp only
  rw [Nat.add_sub_cancel_left]
  rw [h4]
  try dsimp only
  rw [h5, h6, h7]
  try dsimp only
  rw [h8]
  try dsimp only
  rw [h9]
  try dsimp only
  rw [h10]
  try dsimp only
  try rfl

/-- C1: with `outputBinary` enabled, the emitted .glb begins with the magic
`"glTF"` and version 2 as little-endian u32; the JSON chunk is padded with
ASCII spaces (0x20) and the BIN chunk with zero bytes so that the total
length, the JSON chunk length and the BIN chunk length are all multiples of
4; the total length is patched at byte offset 8, the JSON chunk length at
offset 12 and the BIN chunk length at the BIN sub-header offset, all as
little-endian u32, with the total length equal to the final file size. -/
theorem c1_glb_container_layout (jsonBytes binBytes : List Nat) :
    (writeBinaryGlb jsonBytes binBytes).stream.data.take 4 = [103, 108, 84, 70] ∧
    ((writeBinaryGlb jsonBytes binBytes).stream.data.drop 4).take 4 = [2, 0, 0, 0] ∧
    (writeBinaryGlb jsonBytes binBytes).totalLength % 4 = 0 ∧
    (writeBinaryGlb jsonBytes binBytes).jsonLength % 4 = 0 ∧
    (writeBinaryGlb jsonBytes binBytes).binaryLength % 4 = 0 ∧
    ((writeBinaryGlb jsonBytes binBytes).stream.data.drop 8).take 4 =
      le32 (writeBinaryGlb jsonBytes binBytes).totalLength ∧
    ((writeBinaryGlb jsonBytes binBytes).stream.data.drop 12).take 4 =
      le32 (writeBinaryGlb jsonBytes binBytes).jsonLength ∧
    ((writeBinaryGlb jsonBytes binBytes).stream.data.drop
        (writeBinaryGlb jsonBytes binBytes).binHeaderOfs).take 4 =
      le32 (writeBinaryGlb jsonBytes binBytes).binaryLength ∧
    (writeBinaryGlb jsonBytes binBytes).totalLength =
      (writeBinaryGlb jsonBytes binBytes).stream.data.length ∧
    ((writeBinaryGlb jsonBytes binBytes).stream.data.drop (20 + jsonBytes.length)).take
        ((writeBinaryGlb jsonBytes binBytes).jsonLength - jsonBytes.length) =
      List.replicate ((writeBinaryGlb jsonBytes binBytes).jsonLength - jsonBytes.length) 32 ∧
    ((writeBinaryGlb jsonBytes binBytes).stream.data.drop
        ((writeBinaryGlb jsonBytes binBytes).binHeaderOfs + 8 + binBytes.length)).take
        ((writeBinaryGlb jsonBytes binBytes).binaryLength - binBytes.length) =
      List.replicate ((writeBinaryGlb jsonBytes binBytes).binaryLength - binBytes.length) 0 := by
  rw [writeBinaryGlb_eq]
  dsimp only [glbExpected]
  set k1 := (4 - jsonBytes.length % 4) % 4 with hk1
  set k2 := (4 - binBytes.length % 4) % 4 with hk2
  set OFS := 20 + jsonBytes.length + k1 with hOFS
  set JL := jsonBytes.length + k1 with hJL
  set BL := binBytes.length + k2 with hBL
  set T := OFS + 8 + binBytes.length + k2 with hT
  set A := [103, 108, 84, 70, 2, 0, 0, 0, 0, 0, 0, 0] ++ [0, 0, 0, 0, 74, 83, 79, 78] ++
    jsonBytes ++ List.replicate k1 32 ++ [0, 0, 0, 0, 66, 73, 78, 0] ++ binBytes ++
    List.replicate k2 0 with hA
  set A1 := A.take 8 ++ le32 T ++ A.drop 12 with hA1
  set A2 := A1.take 12 ++ le32 JL ++ A1.drop 16 with hA2
  set A3 := A2.take OFS ++ le32 BL ++ A2.drop (OFS + 4) with hA3
  have hAlen : A.length = T := by
    rw [hA, hT, hOFS]
    simp only [List.length_append, List.length_cons, List.length_nil, List.length_replicate]
    try omega
  have hA1len : A1.length = A.length := by
    rw [hA1]
    exact length_patchq A (le32 T) 8 12 (by rw [le32_length]) (by rw [hAlen, hT, hOFS]; omega)
  have hA2len : A2.length = A.length := by
    rw [hA2, length_patchq A1 (le32 JL) 12 16 (by rw [le32_length])
      (by rw [hA1len, hAlen, hT, hOFS]; omega)]
    exact hA1len
  have hA3len : A3.length = A.length := by
    rw [hA3, length_patchq A2 (le32 BL) OFS (OFS + 4) (by rw [le32_length])
      (by rw [hA2len, hAlen, hT]; omega)]
    exact hA2len
  have hpA : 8 ≤ A.length := by rw [hAlen, hT, hOFS]; omega
  have hpA12 : 12 ≤ A.length := by rw [hAlen, hT, hOFS]; omega
  have hpA1 : 12 ≤ A1.length := by rw [hA1len]; exact hpA12
  have hpA2 : OFS ≤ A2.length := by rw [hA2len, hAlen, hT]; omega
  have hOFS16 : 16 ≤ OFS := by rw [hOFS]; omega
  refine ⟨?_, ?_, ?_, ?_, ?_, ?_, ?_, ?_, ?_, ?_, ?_⟩
  · rw [hA3, take_patchq_left A2 (le32 BL) OFS (OFS + 4) 4 (by rw [le32_length])
      (by omega) hpA2]
    rw [hA2, take_patchq_left A1 (le32 JL) 12 16 4 (by rw [le32_length]) (by omega) hpA1]
    rw [hA1, take_patchq_left A (le32 T) 8 12 4 (by rw [le32_length]) (by omega) hpA]
    rw [hA]
    rfl
  · rw [hA3, slice_patchq_left A2 (le32 BL) OFS (OFS + 4) 4 4 (by rw [le32_length])
      (by omega) hpA2]
    rw [hA2, slice_patchq_left A1 (le32 JL) 12 16 4 4 (by rw [le32_length]) (by omega) hpA1]
    rw [hA1, slice_patchq_left A (le32 T) 8 12 4 4 (by rw [le32_length]) (by omega) hpA]
    rw [hA]
    rfl
  · rw [hT, hOFS]; omega
  · rw [hJL]; omega
  · rw [hBL]; omega
  · rw [hA3, slice_patchq_left A2 (le32 BL) OFS (OFS + 4) 8 4 (by rw [le32_length])
      (by omega) hpA2]
    rw [hA2, slice_patchq_left A1 (le32 JL) 12 16 8 4 (by rw [le32_length]) (by omega) hpA1]
    rw [hA1, slice_patchq_at A (le32 T) 8 12 4 (by rw [le32_length]) (le32_length T).symm hpA]
  · rw [hA3, slice_patchq_left A2 (le32 BL) OFS (OFS + 4) 12 4 (by rw [le32_length])
      (by omega) hpA2]
    rw [hA2, slice_patchq_at A1 (le32 JL) 12 16 4 (by rw [le32_length])
      (le32_length JL).symm hpA1]
  · rw [hA3, slice_patchq_at A2 (le32 BL) OFS (OFS + 4) 4 (by rw [le32_length])
      (le32_length BL).symm hpA2]
  · rw [hA3len, hAlen]
  · have hsub : JL - jsonBytes.length = k1 := by rw [hJL]; omega
    rw [hsub]
    rw [hA3, slice_patchq_left A2 (le32 BL) OFS (OFS + 4) (20 + jsonBytes.length) k1
      (by rw [le32_length]) (by rw [hOFS]; try omega) hpA2]
    rw [hA2, slice_patchq_right A1 (le32 JL) 12 16 (20 + jsonBytes.length) k1
      (by rw [le32_length]) (by omega) hpA1]
    rw [hA1, slice_patchq_right A (le32 T) 8 12 (20 + jsonBytes.length) k1
      (by rw [le32_length]) (by omega) hpA]
    rw [hA]
    have hassoc : [103, 108, 84, 70, 2, 0, 0, 0, 0, 0, 0, 0] ++ [0, 0, 0, 0, 74, 83, 79, 78] ++
        jsonBytes ++ List.replicate k1 32 ++ [0, 0, 0, 0, 66, 73, 78, 0] ++ binBytes ++
        List.replicate k2 0 =
        ([103, 108, 84, 70, 2, 0, 0, 0, 0, 0, 0, 0] ++ [0, 0, 0, 0, 74, 83, 79, 78] ++
          jsonBytes) ++ (List.replicate k1 32 ++ ([0, 0, 0, 0, 66, 73, 78, 0] ++ (binBytes ++
          List.replicate k2 0))) := by
      simp [List.append_assoc]
    have hlen20 : ([103, 108, 84, 70, 2, 0, 0, 0, 0, 0, 0, 0] ++ [0, 0, 0, 0, 74, 83, 79, 78] ++
        jsonBytes).length = 20 + jsonBytes.length := by
      simp only [List.length_append, List.length_cons, List.length_nil]
      try omega
    have hR1len : (List.replicate k1 32).length = k1 := by rw [List.length_replicate]
    rw [hassoc, List.drop_left' hlen20, List.take_left' hR1len]
  · have hsub : BL - binBytes.length = k2 := by rw [hBL]; omega
    rw [hsub]
    rw [hA3, slice_patchq_right A2 (le32 BL) OFS (OFS + 4) (OFS + 8 + binBytes.length) k2
      (by rw [le32_length]) (by omega) hpA2]
    rw [hA2, slice_patchq_right A1 (le32 JL) 12 16 (OFS + 8 + binBytes.length) k2
      (by rw [le32_length]) (by omega) hpA1]
    rw [hA1, slice_patchq_right A (le32 T) 8 12 (OFS + 8 + binBytes.length) k2
      (by rw [le32_length]) (by omega) hpA]
    rw [hA]
    have hassoc : [103, 108, 84, 70, 2, 0, 0, 0, 0, 0, 0, 0] ++ [0, 0, 0, 0, 74, 83, 79, 78] ++
        jsonBytes ++ List.replicate k1 32 ++ [0, 0, 0, 0, 66, 73, 78, 0] ++ binBytes ++
        List.replicate k2 0 =
        ([103, 108, 84, 70, 2, 0, 0, 0, 0, 0, 0, 0] ++ [0, 0, 0, 0, 74, 83, 79, 78] ++
          jsonBytes ++ List.replicate k1 32 ++ [0, 0, 0, 0, 66, 73, 78, 0] ++ binBytes) ++
          List.replicate k2 0 := by
      simp [List.append_assoc]
    have hlenP : ([103, 108, 84, 70, 2, 0, 0, 0, 0, 0, 0, 0] ++ [0, 0, 0, 0, 74, 83, 79, 78] ++
        jsonBytes ++ List.replicate k1 32 ++ [0, 0, 0, 0, 66, 73, 78, 0] ++
        binBytes).length = OFS + 8 + binBytes.length := by
      rw [hOFS]
      simp only [List.length_append, List.length_cons, List.length_nil, List.length_replicate]
      try omega
    rw [hassoc, List.drop_left' hlenP]
    exact List.take_of_length_le (by rw [List.length_replicate])

/-! ## Lemmas on the blend-channel loop -/

theorem length_mono_processChannel (o : GltfOptions) (useLong : Bool) (pB nB : AccessorData)
    (ctx : MeshCtx) (cIx : Nat) (c : RawBlendChannel) (vs : List RawVertexModel) :
    ctx.gltf.bufferViews.length ≤
      (processChannel o useLong pB nB ctx cIx c vs).1.gltf.bufferViews.length := by
  unfold processChannel
  dsimp only
  split
  · split
    · rcases hdi : ctx.dummyIdxView with _ | dv0 <;> rcases hdd : ctx.dummyDataView with _ | vv0 <;>
        simp [GltfState.getAlignedBufferView, GltfState.copyToBufferView,
          GltfState.setViewContent, GltfState.addSparseAccessor]
    · split <;> split <;>
        simp [GltfState.getAlignedBufferView, GltfState.copyToBufferView,
          GltfState.setViewContent, GltfState.addSparseAccessor,
          GltfState.addSparseAccessorWithView] <;> omega
  · split <;> split <;>
      simp [GltfState.getAlignedBufferView, GltfState.addAccessorWithView,
        GltfState.setViewContent] <;> omega

theorem sparseOk_of_append (bv : List BufferViewData) (old : List AccessorData)
    (acc : AccessorData)
    (hok : ∀ a ∈ old, ∀ si, a.sparse = some si → 0 < si.count)
    (h : ∀ si, acc.sparse = some si → 0 < si.count) :
    sparseOk ⟨bv, old ++ [acc]⟩ := by
  intro a ha si hsi
  rcases List.mem_append.mp ha with h1 | h1
  · exact hok a h1 si hsi
  · rw [List.mem_singleton.mp h1] at hsi
    exact h si hsi

theorem processChannel_spec (o : GltfOptions) (useLong : Bool) (pB nB : AccessorData)
    (ctx : MeshCtx) (cIx : Nat) (c : RawBlendChannel) (vs : List RawVertexModel)
    (hd : o.disableSparseBlendShapes = false)
    (hinv : DummyInv useLong ctx) (hok : sparseOk ctx.gltf) :
    DummyInv useLong (processChannel o useLong pB nB ctx cIx c vs).1 ∧
    sparseOk (processChannel o useLong pB nB ctx cIx c vs).1.gltf ∧
    (∀ dv, ctx.dummyIdxView = some dv →
      (processChannel o useLong pB nB ctx cIx c vs).1.dummyIdxView = some dv) ∧
    (∀ vv, ctx.dummyDataView = some vv →
      (processChannel o useLong pB nB ctx cIx c vs).1.dummyDataView = some vv) ∧
    ((scanChannel o c cIx vs).sparseIndices.length = 0 →
      ∃ dv vv, (processChannel o useLong pB nB ctx cIx c vs).1.dummyIdxView = some dv ∧
        (processChannel o useLong pB nB ctx cIx c vs).1.dummyDataView = some vv ∧
        (processChannel o useLong pB nB ctx cIx c vs).2.p.sparse =
          some ⟨1, pB.ix, dv.ix, (if useLong then CT_UINT else CT_USHORT), vv.ix, GLT_VEC3F⟩ ∧
        (processChannel o useLong pB nB ctx cIx c vs).2.p.count = pB.count ∧
        (processChannel o useLong pB nB ctx cIx c vs).2.p.accType = pB.accType ∧
        (processChannel o useLong pB nB ctx cIx c vs).2.n = none ∧
        (processChannel o useLong pB nB ctx cIx c vs).2.t = none) ∧
    ((scanChannel o c cIx vs).sparseIndices.length ≠ 0 →
      (processChannel o useLong pB nB ctx cIx c vs).1.dummyIdxView = ctx.dummyIdxView ∧
      (processChannel o useLong pB nB ctx cIx c vs).1.dummyDataView = ctx.dummyDataView) := by
  obtain ⟨hinv1, hinv2, hinv3⟩ := hinv
  unfold processChannel
  dsimp only
  split
  · split
    · rename_i hemp
      rcases hdi : ctx.dummyIdxView with _ | dv0 <;>
        rcases hdd : ctx.dummyDataView with _ | vv0 <;>
        simp only [hdi, hdd] <;> try dsimp only
      · simp [GltfState.getAlignedBufferView, GltfState.copyToBufferView,
          GltfState.setViewContent, GltfState.addSparseAccessor, DummyInv, hemp,
          ViewContent.elemCount]
        exact sparseOk_of_append _ _ _ hok (fun si hsi => by cases hsi; exact Nat.one_pos)
      · obtain ⟨hc2, hb2⟩ := hinv2 vv0 hdd
        simp [GltfState.getAlignedBufferView, GltfState.copyToBufferView,
          GltfState.setViewContent, GltfState.addSparseAccessor, DummyInv, hemp,
          ViewContent.elemCount, hc2]
        exact ⟨⟨by omega, by omega⟩,
          sparseOk_of_append _ _ _ hok (fun si hsi => by cases hsi; exact Nat.one_pos)⟩
      · obtain ⟨hc1, hb1⟩ := hinv1 dv0 hdi
        have hce : dv0.content.elemCount = 1 := by rw [hc1]; rfl
        simp [GltfState.getAlignedBufferView, GltfState.copyToBufferView,
          GltfState.setViewContent, GltfState.addSparseAccessor, DummyInv, hemp,
          ViewContent.elemCount, hc1, hce]
        exact ⟨⟨by omega, by omega⟩,
          sparseOk_of_append _ _ _ hok (fun si hsi => by cases hsi; exact Nat.one_pos)⟩
      · obtain ⟨hc1, hb1⟩ := hinv1 dv0 hdi
        obtain ⟨hc2, hb2⟩ := hinv2 vv0 hdd
        have hce : dv0.content.elemCount = 1 := by rw [hc1]; rfl
        simp [GltfState.getAlignedBufferView, GltfState.copyToBufferView,
          GltfState.setViewContent, GltfState.addSparseAccessor, DummyInv, hemp,
          ViewContent.elemCount, hc1, hc2, hce]
        exact ⟨⟨hb1, hb2, hinv3 dv0 vv0 hdi hdd⟩,
          sparseOk_of_append _ _ _ hok (fun si hsi => by cases hsi; exact Nat.one_pos)⟩
    · rename_i hne
      have hpos : 0 < (scanChannel o c cIx vs).sparseIndices.length := Nat.pos_of_ne_zero hne
      split <;> split <;>
        simp [GltfState.getAlignedBufferView, GltfState.copyToBufferView,
          GltfState.setViewContent, GltfState.addSparseAccessor,
          GltfState.addSparseAccessorWithView, DummyInv, hne, ViewContent.elemCount]
      · refine ⟨⟨fun dv h => ⟨(hinv1 dv h).1, by have h2 := (hinv1 dv h).2; omega⟩,
          fun vv h => ⟨(hinv2 vv h).1, by have h2 := (hinv2 vv h).2; omega⟩,
          fun dv vv h1 h2 => hinv3 dv vv h1 h2⟩, ?_⟩
        intro a ha si hsi
        rcases List.mem_append.mp ha with h1 | h1
        · exact hok a h1 si hsi
        · simp at h1
          rcases h1 with rfl | rfl | rfl <;> (cases hsi; exact hpos)
      · refine ⟨⟨fun dv h => ⟨(hinv1 dv h).1, by have h2 := (hinv1 dv h).2; omega⟩,
          fun vv h => ⟨(hinv2 vv h).1, by have h2 := (hinv2 vv h).2; omega⟩,
          fun dv vv h1 h2 => hinv3 dv vv h1 h2⟩, ?_⟩
        intro a ha si hsi
        rcases List.mem_append.mp ha with h1 | h1
        · exact hok a h1 si hsi
        · simp at h1
          rcases h1 with rfl | rfl <;> (cases hsi; exact hpos)
      · refine ⟨⟨fun dv h => ⟨(hinv1 dv h).1, by have h2 := (hinv1 dv h).2; omega⟩,
          fun vv h => ⟨(hinv2 vv h).1, by have h2 := (hinv2 vv h).2; omega⟩,
          fun dv vv h1 h2 => hinv3 dv vv h1 h2⟩, ?_⟩
        intro a ha si hsi
        rcases List.mem_append.mp ha with h1 | h1
        · exact hok a h1 si hsi
        · simp at h1
          rcases h1 with rfl | rfl <;> (cases hsi; exact hpos)
      · refine ⟨⟨fun dv h => ⟨(hinv1 dv h).1, by have h2 := (hinv1 dv h).2; omega⟩,
          fun vv h => ⟨(hinv2 vv h).1, by have h2 := (hinv2 vv h).2; omega⟩,
          fun dv vv h1 h2 => hinv3 dv vv h1 h2⟩, ?_⟩
        intro a ha si hsi
        rcases List.mem_append.mp ha with h1 | h1
        · exact hok a h1 si hsi
        · simp at h1
          rcases h1 with rfl <;> (cases hsi; exact hpos)
  · rename_i hcond
    rw [hd] at hcond
    simp at hcond

theorem processChannels_spec (o : GltfOptions) (useLong : Bool) (pB nB : AccessorData)
    (vs : List RawVertexModel) (hd : o.disableSparseBlendShapes = false) :
    ∀ (cs : List RawBlendChannel) (ctx : MeshCtx) (cIx : Nat),
      DummyInv useLong ctx → sparseOk ctx.gltf →
      DummyInv useLong (processChannels o useLong pB nB vs ctx cIx cs).1 ∧
      sparseOk (processChannels o useLong pB nB vs ctx cIx cs).1.gltf ∧
      (∀ dv, ctx.dummyIdxView = some dv →
        (processChannels o useLong pB nB vs ctx cIx cs).1.dummyIdxView = some dv) ∧
      (∀ vv, ctx.dummyDataView = some vv →
        (processChannels o useLong pB nB vs ctx cIx cs).1.dummyDataView = some vv) ∧
      (processChannels o useLong pB nB vs ctx cIx cs).2.length = cs.length ∧
      (∀ k, k < cs.length →
        (scanChannel o (cs.getD k RawBlendChannel.dflt) (cIx + k) vs).sparseIndices.length = 0 →
        ∃ dv vv, (processChannels o useLong pB nB vs ctx cIx cs).1.dummyIdxView = some dv ∧
          (processChannels o useLong pB nB vs ctx cIx cs).1.dummyDataView = some vv ∧
          ((processChannels o useLong pB nB vs ctx cIx cs).2.getD k MorphTarget.dflt).p.sparse =
            some ⟨1, pB.ix, dv.ix, (if useLong then CT_UINT else CT_USHORT), vv.ix, GLT_VEC3F⟩ ∧
          ((processChannels o useLong pB nB vs ctx cIx cs).2.getD k MorphTarget.dflt).p.count =
            pB.count ∧
          ((processChannels o useLong pB nB vs ctx cIx cs).2.getD k MorphTarget.dflt).p.accType =
            pB.accType) ∧
      ((∀ k, k < cs.length →
        (scanChannel o (cs.getD k RawBlendChannel.dflt) (cIx + k) vs).sparseIndices.length ≠ 0) →
        (processChannels o useLong pB nB vs ctx cIx cs).1.dummyIdxView = ctx.dummyIdxView ∧
        (processChannels o useLong pB nB vs ctx cIx cs).1.dummyDataView = ctx.dummyDataView) := by
  intro cs
  induction cs with
  | nil =>
    intro ctx cIx hinv hok
    refine ⟨hinv, hok, fun dv h => h, fun vv h => h, rfl, ?_, fun _ => ⟨rfl, rfl⟩⟩
    intro k hk
    simp at hk
  | cons c cs ih =>
    intro ctx cIx hinv hok
    obtain ⟨S1, S2, S3, S4, S5, S6⟩ :=
      processChannel_spec o useLong pB nB ctx cIx c vs hd hinv hok
    obtain ⟨R1, R2, R3, R4, R5, R6, R7⟩ :=
      ih (processChannel o useLong pB nB ctx cIx c vs).1 (cIx + 1) S1 S2
    simp only [processChannels]
    refine ⟨R1, R2, fun dv h => R3 dv (S3 dv h), fun vv h => R4 vv (S4 vv h), ?_, ?_, ?_⟩
    · simp [R5]
    · intro k hk hscan
      cases k with
      | zero =>
        simp only [List.getD_cons_zero, Nat.add_zero] at hscan
        obtain ⟨dv, vv, hdv, hvv, hp, hc, ha, hn, ht⟩ := S5 hscan
        exact ⟨dv, vv, R3 dv hdv, R4 vv hvv, by simpa using hp, by simpa using hc,
          by simpa using ha⟩
      | succ j =>
        simp only [List.getD_cons_succ] at hscan ⊢
        have hj : j < cs.length := by simp at hk; omega
        have harith : cIx + (j + 1) = cIx + 1 + j := by omega
        rw [harith] at hscan
        obtain ⟨dv, vv, hdv, hvv, hp, hc, ha⟩ := R6 j hj hscan
        exact ⟨dv, vv, hdv, hvv, hp, hc, ha⟩
    · intro hall
      have h0 : (scanChannel o c cIx vs).sparseIndices.length ≠ 0 := by
        have := hall 0 (by simp)
        simpa using this
      have hrest : ∀ k, k < cs.length →
          (scanChannel o (cs.getD k RawBlendChannel.dflt) (cIx + 1 + k) vs).sparseIndices.length
            ≠ 0 := by
        intro k hk
        have harith : cIx + 1 + k = cIx + (k + 1) := by omega
        rw [harith]
        have := hall (k + 1) (by simp; omega)
        simpa using this
      obtain ⟨hd1, hd2⟩ := R7 hrest
      obtain ⟨he1, he2⟩ := S6 h0
      exact ⟨hd1.trans he1, hd2.trans he2⟩

theorem sparseOk_addAccessorWithView (st : GltfState) (v : BufferViewData) (t : GltfType)
    (vals : ViewContent) (name : String) (hok : sparseOk st) :
    sparseOk (st.addAccessorWithView v t vals name).1 := by
  simp only [GltfState.addAccessorWithView, GltfState.setViewContent]
  exact sparseOk_of_append _ _ _ hok (fun si hsi => Option.noConfusion hsi)

theorem sparseOk_addAttributeAccessor (st : GltfState) (t : GltfType) (n : Nat)
    (name : String) (hok : sparseOk st) :
    sparseOk (st.addAttributeAccessor t n name).1 := by
  simp only [GltfState.addAttributeAccessor, GltfState.getAlignedBufferView]
  exact sparseOk_of_append _ _ _ hok (fun si hsi => Option.noConfusion hsi)

theorem processChannel_idxCT (o : GltfOptions) (useLong : Bool) (pB nB : AccessorData)
    (ctx : MeshCtx) (cIx : Nat) (c : RawBlendChannel) (vs : List RawVertexModel) :
    targetIdxCTOk (if useLong then CT_UINT else CT_USHORT)
      (processChannel o useLong pB nB ctx cIx c vs).2 := by
  unfold processChannel
  dsimp only
  generalize (if useLong = true then CT_UINT else CT_USHORT) = ict
  split
  · split
    · rcases ctx.dummyIdxView with _ | dv0 <;> rcases ctx.dummyDataView with _ | vv0 <;>
        simp [GltfState.getAlignedBufferView, GltfState.copyToBufferView,
          GltfState.setViewContent, GltfState.addSparseAccessor, targetIdxCTOk]
    · split <;> split <;>
        simp [GltfState.getAlignedBufferView, GltfState.copyToBufferView,
          GltfState.setViewContent, GltfState.addSparseAccessor,
          GltfState.addSparseAccessorWithView, targetIdxCTOk]
  · split <;> split <;>
      simp [GltfState.getAlignedBufferView, GltfState.setViewContent,
        GltfState.addAccessorWithView, targetIdxCTOk]

theorem processChannels_idxCT (o : GltfOptions) (useLong : Bool) (pB nB : AccessorData)
    (vs : List RawVertexModel) :
    ∀ (cs : List RawBlendChannel) (ctx : MeshCtx) (cIx : Nat),
      ∀ t ∈ (processChannels o useLong pB nB vs ctx cIx cs).2,
        targetIdxCTOk (if useLong then CT_UINT else CT_USHORT) t := by
  intro cs
  induction cs with
  | nil => intro ctx cIx t ht; simp [processChannels] at ht
  | cons c cs ih =>
    intro ctx cIx t ht
    simp only [processChannels, List.mem_cons] at ht
    rcases ht with rfl | ht
    · exact processChannel_idxCT o useLong pB nB ctx cIx c vs
    · exact ih _ (cIx + 1) t ht

theorem computeUseLongIndices_iff (o : GltfOptions) (n : Nat) :
    computeUseLongIndices o n = true ↔
      (o.useLongIndices = UseLongIndicesOptions.ALWAYS ∨
        (o.useLongIndices = UseLongIndicesOptions.AUTO ∧ 65535 < n)) := by
  unfold computeUseLongIndices
  cases o.useLongIndices <;> simp

/-- C4: the indices accessor of a surface has component type `UINT32`
exactly when `useLongIndices` is `ALWAYS`, or is `AUTO` with the surface's
vertex count above 65535; otherwise it is `UINT16`; and every sparse
morph-target accessor of that surface uses the same component type for its
sparse index data. -/
theorem c4_index_width (o : GltfOptions) (s : SurfaceModel) (st : GltfState) :
    ((processSurface o s st).indexAccessor.accType.componentType = CT_UINT ↔
      (o.useLongIndices = UseLongIndicesOptions.ALWAYS ∨
        (o.useLongIndices = UseLongIndicesOptions.AUTO ∧ 65535 < s.vertices.length))) ∧
    ((processSurface o s st).indexAccessor.accType.componentType = CT_UINT ∨
      (processSurface o s st).indexAccessor.accType.componentType = CT_USHORT) ∧
    (∀ t ∈ (processSurface o s st).targets,
      targetIdxCTOk (processSurface o s st).indexAccessor.accType.componentType t) := by
  have hacc : (processSurface o s st).indexAccessor.accType =
      (if computeUseLongIndices o s.vertices.length then GLT_UINT else GLT_USHORT) := rfl
  refine ⟨?_, ?_, ?_⟩
  · rw [hacc, ← computeUseLongIndices_iff o s.vertices.length]
    cases computeUseLongIndices o s.vertices.length <;> decide
  · rw [hacc]
    cases computeUseLongIndices o s.vertices.length <;> decide
  · have hct : (processSurface o s st).indexAccessor.accType.componentType =
        (if computeUseLongIndices o s.vertices.length then CT_UINT else CT_USHORT) := by
      rw [hacc]; cases computeUseLongIndices o s.vertices.length <;> rfl
    rw [hct]
    simp only [processSurface]
    try dsimp only
    exact fun t ht => processChannels_idxCT o _ _ _ s.vertices s.blendChannels _ 0 t ht

theorem processChannels_get (o : GltfOptions) (useLong : Bool) (pB nB : AccessorData)
    (vs : List RawVertexModel) :
    ∀ (cs : List RawBlendChannel) (ctx : MeshCtx) (cIx k : Nat), k < cs.length →
      ∃ ctx2, (processChannels o useLong pB nB vs ctx cIx cs).2.getD k MorphTarget.dflt =
        (processChannel o useLong pB nB ctx2 (cIx + k) (cs.getD k RawBlendChannel.dflt)
          vs).2 := by
  intro cs
  induction cs with
  | nil => intro ctx cIx k hk; exact absurd hk (by simp)
  | cons c cs ih =>
    intro ctx cIx k hk
    match k with
    | 0 => exact ⟨ctx, rfl⟩
    | k + 1 =>
      obtain ⟨ctx2, h⟩ := ih (processChannel o useLong pB nB ctx cIx c vs).1 (cIx + 1) k
        (by simpa using hk)
      refine ⟨ctx2, ?_⟩
      simp only [processChannels]
      have h1 : cIx + 1 + k = cIx + (k + 1) := by omega
      have h2 : (c :: cs).getD (k + 1) RawBlendChannel.dflt = cs.getD k RawBlendChannel.dflt :=
        rfl
      rw [h2, ← h1]
      exact h

theorem processChannel_tangent (o : GltfOptions) (useLong : Bool) (pB nB : AccessorData)
    (ctx : MeshCtx) (cIx : Nat) (c : RawBlendChannel) (vs : List RawVertexModel)
    (hd : o.disableSparseBlendShapes = false)
    (hne : (scanChannel o c cIx vs).sparseIndices.length ≠ 0)
    (htg : (scanChannel o c cIx vs).tangents.length ≠ 0) :
    ∃ ta si, (processChannel o useLong pB nB ctx cIx c vs).2.t = some ta ∧
      ta.accType = nB.accType ∧ ta.count = nB.count ∧ ta.sparse = some si ∧
      si.baseIx = nB.ix ∧ si.count = (scanChannel o c cIx vs).sparseIndices.length ∧
      si.valType = GLT_VEC4F ∧
      si.idxComponentType = (if useLong then CT_UINT else CT_USHORT) := by
  unfold processChannel
  dsimp only
  rw [hd]
  simp only [Bool.not_false, if_true]
  rw [if_neg hne, if_pos htg]
  split <;>
    exact ⟨_, _, rfl, rfl, rfl, rfl, rfl, rfl, rfl, rfl⟩

theorem processChannel_dense (o : GltfOptions) (useLong : Bool) (pB nB : AccessorData)
    (ctx : MeshCtx) (cIx : Nat) (c : RawBlendChannel) (vs : List RawVertexModel)
    (hd : o.disableSparseBlendShapes = true) :
    (processChannel o useLong pB nB ctx cIx c vs).2.t = none ∧
    ((scanChannel o c cIx vs).tangents.length ≠ 0 →
      ∃ na, (processChannel o useLong pB nB ctx cIx c vs).2.n = some na ∧
        na.accType = GLT_VEC4F ∧
        na.content = ViewContent.vec4Arr (scanChannel o c cIx vs).tangents) := by
  unfold processChannel
  dsimp only
  rw [hd]
  simp only [Bool.not_true, Bool.false_eq_true, if_false]
  refine ⟨by trivial, fun htg => ?_⟩
  rw [if_pos htg]
  exact ⟨_, rfl, rfl, rfl⟩

theorem processChannels_t_none (o : GltfOptions) (useLong : Bool) (pB nB : AccessorData)
    (vs : List RawVertexModel) (hd : o.disableSparseBlendShapes = true) :
    ∀ (cs : List RawBlendChannel) (ctx : MeshCtx) (cIx : Nat),
      ∀ t ∈ (processChannels o useLong pB nB vs ctx cIx cs).2, t.t = none := by
  intro cs
  induction cs with
  | nil => intro ctx cIx t ht; simp [processChannels] at ht
  | cons c cs ih =>
    intro ctx cIx t ht
    simp only [processChannels, List.mem_cons] at ht
    rcases ht with rfl | ht
    · exact (processChannel_dense o useLong pB nB ctx cIx c vs hd).1
    · exact ih _ (cIx + 1) t ht

theorem processSurfaceBases_ok (s : SurfaceModel) (st : GltfState) (hok : sparseOk st) :
    sparseOk (processSurfaceBases s st).1 := by
  unfold processSurfaceBases
  dsimp only
  split <;> split <;> dsimp only <;>
    repeat (first | exact hok | apply sparseOk_addAttributeAccessor)

theorem processSurfaceBases_pBase_count (s : SurfaceModel) (st : GltfState) :
    (processSurfaceBases s st).2.1.count = s.vertices.length := rfl

theorem processSurfaceBases_nBase (s : SurfaceModel) (st : GltfState)
    (hN : s.hasNormalAttr = true) :
    (processSurfaceBases s st).2.2.1 =
      some { ix := st.accessors.length + 1, accType := GLT_VEC3F,
             count := s.vertices.length, name := "NORMAL" } := by
  unfold processSurfaceBases
  simp [hN, GltfState.addAttributeAccessor, GltfState.getAlignedBufferView]

theorem processSurfaceBases_tBase (s : SurfaceModel) (st : GltfState)
    (hN : s.hasNormalAttr = true) (hT : s.hasTangentAttr = true) :
    (processSurfaceBases s st).2.2.2 =
      some { ix := st.accessors.length + 2, accType := GLT_VEC4F,
             count := s.vertices.length, name := "TANGENT" } := by
  unfold processSurfaceBases
  simp [hN, hT, GltfState.addAttributeAccessor, GltfState.getAlignedBufferView]

/-- C2: with sparse blend shapes enabled, every blend channel whose
sparse-vertex list is empty yields a morph-target position accessor that is
sparse over the base position accessor, reports the base count (the
surface's vertex count), and whose sparse index / value views are the two
shared singleton dummy views (one zero index of the surface's index width,
one zero `Vec3`); the dummies are created lazily (none exist when no channel
is empty), and no sparse accessor with zero modified elements is ever
emitted. -/
theorem c2_empty_channel_dummy_views (o : GltfOptions) (s : SurfaceModel) (st : GltfState)
    (hd : o.disableSparseBlendShapes = false) (hok : sparseOk st) :
    sparseOk (processSurface o s st).ctx.gltf ∧
    (∀ k, k < (processSurface o s st).targets.length →
      (scanChannel o (s.blendChannels.getD k RawBlendChannel.dflt) k
        s.vertices).sparseIndices.length = 0 →
      ∃ dv vv, (processSurface o s st).ctx.dummyIdxView = some dv ∧
        (processSurface o s st).ctx.dummyDataView = some vv ∧
        dv.ix ≠ vv.ix ∧
        dv.content = ViewContent.idx
          (if (processSurface o s st).useLong then CT_UINT else CT_USHORT) [0] ∧
        vv.content = ViewContent.vec3Arr [(0, 0, 0)] ∧
        ((processSurface o s st).targets.getD k MorphTarget.dflt).p.sparse =
          some ⟨1, (processSurface o s st).pBase.ix, dv.ix,
            (if (processSurface o s st).useLong then CT_UINT else CT_USHORT), vv.ix,
            GLT_VEC3F⟩ ∧
        ((processSurface o s st).targets.getD k MorphTarget.dflt).p.count =
          (processSurface o s st).pBase.count ∧
        (processSurface o s st).pBase.count = s.vertices.length) ∧
    ((∀ k, k < s.blendChannels.length →
        (scanChannel o (s.blendChannels.getD k RawBlendChannel.dflt) k
          s.vertices).sparseIndices.length ≠ 0) →
      (processSurface o s st).ctx.dummyIdxView = none ∧
      (processSurface o s st).ctx.dummyDataView = none) := by
  simp only [processSurface]
  try dsimp only
  set UL := computeUseLongIndices o s.vertices.length with hUL
  set st1 := ((st.getAlignedBufferView GL_ELEMENT_ARRAY_BUFFER).1.addAccessorWithView
    (st.getAlignedBufferView GL_ELEMENT_ARRAY_BUFFER).2
    (if UL then GLT_UINT else GLT_USHORT)
    (ViewContent.idx (if UL then CT_UINT else CT_USHORT) (getIndexArray s)) "").1 with hst1
  have hokIr : sparseOk st1 := by
    rw [hst1]
    exact sparseOk_addAccessorWithView _ _ _ _ _ hok
  have hokB : sparseOk (processSurfaceBases s st1).1 := processSurfaceBases_ok s st1 hokIr
  have hinv0 : DummyInv UL ⟨(processSurfaceBases s st1).1, none, none⟩ :=
    ⟨fun dv h => Option.noConfusion h, fun vv h => Option.noConfusion h,
     fun dv vv h1 _ => Option.noConfusion h1⟩
  obtain ⟨R1, R2, R3, R4, R5, R6, R7⟩ := processChannels_spec o UL
    (processSurfaceBases s st1).2.1 ((processSurfaceBases s st1).2.2.1.getD AccessorData.dflt)
    s.vertices hd s.blendChannels ⟨(processSurfaceBases s st1).1, none, none⟩ 0 hinv0 hokB
  refine ⟨R2, ?_, ?_⟩
  · intro k hk hscan
    have hk2 : k < s.blendChannels.length := by rw [← R5]; exact hk
    have hscan0 : (scanChannel o (s.blendChannels.getD k RawBlendChannel.dflt) (0 + k)
        s.vertices).sparseIndices.length = 0 := by rw [Nat.zero_add]; exact hscan
    obtain ⟨dv, vv, hdv, hvv, hp, hc, ha⟩ := R6 k hk2 hscan0
    obtain ⟨hcont1, _⟩ := R1.1 dv hdv
    obtain ⟨hcont2, _⟩ := R1.2.1 vv hvv
    exact ⟨dv, vv, hdv, hvv, R1.2.2 dv vv hdv hvv, hcont1, hcont2, hp, hc,
      processSurfaceBases_pBase_count s st1⟩
  · intro hall
    apply R7
    intro k hk
    rw [Nat.zero_add]
    exact hall k hk

theorem c2_empty_channel_dummy_views_witness :
    oW.disableSparseBlendShapes = false ∧ sparseOk stW ∧
    (sparseOk (processSurface oW sW stW).ctx.gltf ∧
      (∀ k, k < (processSurface oW sW stW).targets.length →
        (scanChannel oW (sW.blendChannels.getD k RawBlendChannel.dflt) k
          sW.vertices).sparseIndices.length = 0 →
        ∃ dv vv, (processSurface oW sW stW).ctx.dummyIdxView = some dv ∧
          (processSurface oW sW stW).ctx.dummyDataView = some vv ∧
          dv.ix ≠ vv.ix ∧
          dv.content = ViewContent.idx
            (if (processSurface oW sW stW).useLong then CT_UINT else CT_USHORT) [0] ∧
          vv.content = ViewContent.vec3Arr [(0, 0, 0)] ∧
          ((processSurface oW sW stW).targets.getD k MorphTarget.dflt).p.sparse =
            some ⟨1, (processSurface oW sW stW).pBase.ix, dv.ix,
              (if (processSurface oW sW stW).useLong then CT_UINT else CT_USHORT), vv.ix,
              GLT_VEC3F⟩ ∧
          ((processSurface oW sW stW).targets.getD k MorphTarget.dflt).p.count =
            (processSurface oW sW stW).pBase.count ∧
          (processSurface oW sW stW).pBase.count = sW.vertices.length) ∧
      ((∀ k, k < sW.blendChannels.length →
          (scanChannel oW (sW.blendChannels.getD k RawBlendChannel.dflt) k
            sW.vertices).sparseIndices.length ≠ 0) →
        (processSurface oW sW stW).ctx.dummyIdxView = none ∧
        (processSurface oW sW stW).ctx.dummyDataView = none)) :=
  ⟨rfl, fun a ha => absurd ha (List.not_mem_nil a),
    c2_empty_channel_dummy_views oW sW stW rfl (fun a ha => absurd ha (List.not_mem_nil a))⟩

/-- C8: on a surface carrying both NORMAL and TANGENT attributes, the sparse
tangent accessor of a non-empty blend channel with collected tangents is
built over the NORMAL base accessor: its non-sparse fields (`accType`,
`count`) mirror the normal base and its sparse base index is the normal
base's index, which differs from the tangent base accessor's index. -/
theorem c8_tangent_sparse_base_is_normal (o : GltfOptions) (s : SurfaceModel)
    (st : GltfState) (k : Nat)
    (hd : o.disableSparseBlendShapes = false)
    (hN : s.hasNormalAttr = true) (hT : s.hasTangentAttr = true)
    (hk : k < s.blendChannels.length)
    (hne : (scanChannel o (s.blendChannels.getD k RawBlendChannel.dflt) k
      s.vertices).sparseIndices.length ≠ 0)
    (htg : (scanChannel o (s.blendChannels.getD k RawBlendChannel.dflt) k
      s.vertices).tangents.length ≠ 0) :
    ∃ nB tB ta si,
      (processSurface o s st).nBase = some nB ∧
      (processSurface o s st).tBase = some tB ∧
      nB.ix ≠ tB.ix ∧
      ((processSurface o s st).targets.getD k MorphTarget.dflt).t = some ta ∧
      ta.accType = nB.accType ∧
      ta.count = nB.count ∧
      ta.sparse = some si ∧
      si.baseIx = nB.ix ∧
      si.baseIx ≠ tB.ix ∧
      si.valType = GLT_VEC4F := by
  simp only [processSurface]
  try dsimp only
  set UL := computeUseLongIndices o s.vertices.length with hUL
  set st1 := ((st.getAlignedBufferView GL_ELEMENT_ARRAY_BUFFER).1.addAccessorWithView
    (st.getAlignedBufferView GL_ELEMENT_ARRAY_BUFFER).2
    (if UL then GLT_UINT else GLT_USHORT)
    (ViewContent.idx (if UL then CT_UINT else CT_USHORT) (getIndexArray s)) "").1 with hst1
  have hnb := processSurfaceBases_nBase s st1 hN
  have htb := processSurfaceBases_tBase s st1 hN hT
  have hnbD : (processSurfaceBases s st1).2.2.1.getD AccessorData.dflt =
      { ix := st1.accessors.length + 1, accType := GLT_VEC3F,
        count := s.vertices.length, name := "NORMAL" } := by
    rw [hnb]; rfl
  obtain ⟨ctx2, hget⟩ := processChannels_get o UL (processSurfaceBases s st1).2.1
    ((processSurfaceBases s st1).2.2.1.getD AccessorData.dflt) s.vertices s.blendChannels
    ⟨(processSurfaceBases s st1).1, none, none⟩ 0 k hk
  have hne0 : (scanChannel o (s.blendChannels.getD k RawBlendChannel.dflt) (0 + k)
      s.vertices).sparseIndices.length ≠ 0 := by rw [Nat.zero_add]; exact hne
  have htg0 : (scanChannel o (s.blendChannels.getD k RawBlendChannel.dflt) (0 + k)
      s.vertices).tangents.length ≠ 0 := by rw [Nat.zero_add]; exact htg
  obtain ⟨ta, si, hta, hacc, hcnt, hsp, hbase, hspcnt, hval, hict⟩ :=
    processChannel_tangent o UL (processSurfaceBases s st1).2.1
      ((processSurfaceBases s st1).2.2.1.getD AccessorData.dflt) ctx2 (0 + k)
      (s.blendChannels.getD k RawBlendChannel.dflt) s.vertices hd hne0 htg0
  refine ⟨_, _, ta, si, hnb, htb, by simp, ?_, ?_, ?_, hsp, ?_, ?_, hval⟩
  · rw [hget]; exact hta
  · rw [hacc, hnbD]
  · rw [hcnt, hnbD]
  · rw [hbase, hnbD]
  · rw [hbase, hnbD]; simp

theorem c8_tangent_sparse_base_is_normal_witness :
    o8W.disableSparseBlendShapes = false ∧ s8W.hasNormalAttr = true ∧
    s8W.hasTangentAttr = true ∧ 0 < s8W.blendChannels.length ∧
    (scanChannel o8W (s8W.blendChannels.getD 0 RawBlendChannel.dflt) 0
      s8W.vertices).sparseIndices.length ≠ 0 ∧
    (scanChannel o8W (s8W.blendChannels.getD 0 RawBlendChannel.dflt) 0
      s8W.vertices).tangents.length ≠ 0 ∧
    (∃ nB tB ta si,
      (processSurface o8W s8W stW).nBase = some nB ∧
      (processSurface o8W s8W stW).tBase = some tB ∧
      nB.ix ≠ tB.ix ∧
      ((processSurface o8W s8W stW).targets.getD 0 MorphTarget.dflt).t = some ta ∧
      ta.accType = nB.accType ∧
      ta.count = nB.count ∧
      ta.sparse = some si ∧
      si.baseIx = nB.ix ∧
      si.baseIx ≠ tB.ix ∧
      si.valType = GLT_VEC4F) := by
  have hscan : scanChannel o8W (s8W.blendChannels.getD 0 RawBlendChannel.dflt) 0 s8W.vertices =
      ⟨[0], [(1, 0, 0)], [], [(1, 0, 0, 0)]⟩ := by
    norm_num [scanChannel, scanChannelStep, vec3Len2, o8W, s8W, RawBlendChannel.dflt,
      List.range_succ]
  exact ⟨rfl, rfl, rfl, by decide, by rw [hscan]; decide, by rw [hscan]; decide,
    c8_tangent_sparse_base_is_normal o8W s8W stW 0 rfl rfl rfl (by decide)
      (by rw [hscan]; decide) (by rw [hscan]; decide)⟩

/-- C9: with `disableSparseBlendShapes` set, every morph target has a null
tangent accessor, and a channel carrying tangent data gets its dense `VEC4F`
tangent accessor stored in the normal slot of the target (overwriting the
dense normal accessor there). -/
theorem c9_disable_sparse_dense_targets (o : GltfOptions) (s : SurfaceModel) (st : GltfState)
    (hd : o.disableSparseBlendShapes = true) :
    (∀ t ∈ (processSurface o s st).targets, t.t = none) ∧
    (∀ k, k < s.blendChannels.length →
      (scanChannel o (s.blendChannels.getD k RawBlendChannel.dflt) k
        s.vertices).tangents.length ≠ 0 →
      ∃ na, ((processSurface o s st).targets.getD k MorphTarget.dflt).n = some na ∧
        na.accType = GLT_VEC4F ∧
        na.content = ViewContent.vec4Arr
          (scanChannel o (s.blendChannels.getD k RawBlendChannel.dflt) k
            s.vertices).tangents) := by
  simp only [processSurface]
  try dsimp only
  set UL := computeUseLongIndices o s.vertices.length with hUL
  set st1 := ((st.getAlignedBufferView GL_ELEMENT_ARRAY_BUFFER).1.addAccessorWithView
    (st.getAlignedBufferView GL_ELEMENT_ARRAY_BUFFER).2
    (if UL then GLT_UINT else GLT_USHORT)
    (ViewContent.idx (if UL then CT_UINT else CT_USHORT) (getIndexArray s)) "").1 with hst1
  constructor
  · exact fun t ht => processChannels_t_none o UL (processSurfaceBases s st1).2.1
      ((processSurfaceBases s st1).2.2.1.getD AccessorData.dflt) s.vertices hd
      s.blendChannels ⟨(processSurfaceBases s st1).1, none, none⟩ 0 t ht
  · intro k hk htg
    obtain ⟨ctx2, hget⟩ := processChannels_get o UL (processSurfaceBases s st1).2.1
      ((processSurfaceBases s st1).2.2.1.getD AccessorData.dflt) s.vertices s.blendChannels
      ⟨(processSurfaceBases s st1).1, none, none⟩ 0 k hk
    rw [hget]
    have htg0 : (scanChannel o (s.blendChannels.getD k RawBlendChannel.dflt) (0 + k)
        s.vertices).tangents.length ≠ 0 := by rw [Nat.zero_add]; exact htg
    obtain ⟨na, hna, hacc, hcont⟩ := (processChannel_dense o UL
      (processSurfaceBases s st1).2.1
      ((processSurfaceBases s st1).2.2.1.getD AccessorData.dflt) ctx2 (0 + k)
      (s.blendChannels.getD k RawBlendChannel.dflt) s.vertices hd).2 htg0
    rw [Nat.zero_add] at hcont
    exact ⟨na, hna, hacc, hcont⟩

theorem c9_disable_sparse_dense_targets_witness :
    o9W.disableSparseBlendShapes = true ∧
    ((∀ t ∈ (processSurface o9W s8W stW).targets, t.t = none) ∧
      (∀ k, k < s8W.blendChannels.length →
        (scanChannel o9W (s8W.blendChannels.getD k RawBlendChannel.dflt) k
          s8W.vertices).tangents.length ≠ 0 →
        ∃ na, ((processSurface o9W s8W stW).targets.getD k MorphTarget.dflt).n = some na ∧
          na.accType = GLT_VEC4F ∧
          na.content = ViewContent.vec4Arr
            (scanChannel o9W (s8W.blendChannels.getD k RawBlendChannel.dflt) k
              s8W.vertices).tangents)) :=
  ⟨rfl, c9_disable_sparse_dense_targets o9W s8W stW rfl⟩

/-- C3: a PBR met/rough material with at least one of the occlusion,
roughness, metallic maps, outside the pass-through case, triggers exactly one
`TextureBuilder::combine` call, tagged `"ao_met_rough"`, non-sRGB, over the
occlusion/roughness/metallic texture slots; its combiner computes the pixel
`(occlusion, roughness, metallic, 1)` with the presence-dependent factors and
optional roughness inversion; the combine result becomes both the
metallic-roughness texture and (when non-null) the occlusion texture. -/
theorem c3_ao_met_rough_combine (sqrtf : Rat → Rat) (tbm : TextureBuilderModel)
    (fileLoc : Int → String) (m : RawMaterialModel) (props : RawMetRoughMatProps)
    (hinfo : m.info = RawMatInfo.metRough props)
    (hany : m.textures RawTextureUsage.metallic ≥ 0 ∨
      m.textures RawTextureUsage.roughness ≥ 0 ∨
      m.textures RawTextureUsage.occlusion ≥ 0)
    (hnpass : ¬(m.textures RawTextureUsage.occlusion ≥ 0 ∧
      m.textures RawTextureUsage.roughness ≥ 0 ∧
      m.textures RawTextureUsage.metallic ≥ 0 ∧
      texturesAreSame fileLoc m RawTextureUsage.metallic RawTextureUsage.roughness = true ∧
      texturesAreSame fileLoc m RawTextureUsage.metallic RawTextureUsage.occlusion = true)) :
    ∃ cc, (resolveMaterial sqrtf tbm fileLoc m).combineCalls = [cc] ∧
      cc.tag = "ao_met_rough" ∧
      cc.srgb = false ∧
      cc.sources = [m.textures RawTextureUsage.occlusion,
        m.textures RawTextureUsage.roughness, m.textures RawTextureUsage.metallic] ∧
      (∀ pixels : List Vec4q,
        cc.combiner pixels =
          (if m.textures RawTextureUsage.occlusion ≥ 0
            then q4r (pixels.getD 0 neutralPixel) else 1,
           (if props.invertRoughnessMap then
              1 - q4g (pixels.getD 1 neutralPixel) *
                (if m.textures RawTextureUsage.roughness ≥ 0 then 1 else props.roughness)
            else
              q4g (pixels.getD 1 neutralPixel) *
                (if m.textures RawTextureUsage.roughness ≥ 0 then 1 else props.roughness)),
           q4b (pixels.getD 2 neutralPixel) *
             (if m.textures RawTextureUsage.metallic ≥ 0 then 1 else props.metallic),
           1)) ∧
      (resolveMaterial sqrtf tbm fileLoc m).pbr.metRoughTex =
        tbm.combine cc.sources cc.tag cc.combiner cc.srgb ∧
      (resolveMaterial sqrtf tbm fileLoc m).aoMetRoughTex =
        tbm.combine cc.sources cc.tag cc.combiner cc.srgb ∧
      ((resolveMaterial sqrtf tbm fileLoc m).aoMetRoughTex ≠ none →
        (resolveMaterial sqrtf tbm fileLoc m).occlusionTexture =
          (resolveMaterial sqrtf tbm fileLoc m).aoMetRoughTex) := by
  have h1 : (decide (m.textures RawTextureUsage.metallic ≥ 0) ||
      decide (m.textures RawTextureUsage.roughness ≥ 0) ||
      decide (m.textures RawTextureUsage.occlusion ≥ 0)) = true := by
    rcases hany with h | h | h <;> simp [h]
  have h2 : (decide (m.textures RawTextureUsage.occlusion ≥ 0) &&
      decide (m.textures RawTextureUsage.roughness ≥ 0) &&
      decide (m.textures RawTextureUsage.metallic ≥ 0) &&
      (texturesAreSame fileLoc m RawTextureUsage.metallic RawTextureUsage.roughness &&
        texturesAreSame fileLoc m RawTextureUsage.metallic RawTextureUsage.occlusion)) =
      false := by
    rw [Bool.eq_false_iff]
    intro hc
    simp only [Bool.and_eq_true, decide_eq_true_eq] at hc
    exact hnpass ⟨hc.1.1.1, hc.1.1.2, hc.1.2, hc.2.1, hc.2.2⟩
  simp only [resolveMaterial, hinfo]
  unfold resolveMetRough
  dsimp only
  rw [h1]
  simp only [Bool.not_true, Bool.false_eq_true, if_false]
  rw [h2]
  simp only [Bool.false_eq_true, if_false]
  refine ⟨⟨[m.textures RawTextureUsage.occlusion, m.textures RawTextureUsage.roughness,
    m.textures RawTextureUsage.metallic], "ao_met_rough",
    metRoughCombiner (decide (m.textures RawTextureUsage.occlusion ≥ 0))
      (decide (m.textures RawTextureUsage.roughness ≥ 0))
      (decide (m.textures RawTextureUsage.metallic ≥ 0)) props, false⟩, ?_⟩
  split
  case isTrue hnone =>
    refine ⟨rfl, rfl, rfl, rfl, ?_, rfl, rfl, ?_⟩
    · intro pixels
      simp only [metRoughCombiner, decide_eq_true_eq]
    · intro hne
      exact absurd hnone hne
  case isFalse hnone =>
    refine ⟨rfl, rfl, rfl, rfl, ?_, rfl, rfl, fun _ => rfl⟩
    intro pixels
    simp only [metRoughCombiner, decide_eq_true_eq]

theorem c3_ao_met_rough_combine_witness :
    mW.info = RawMatInfo.metRough propsW ∧
    (mW.textures RawTextureUsage.metallic ≥ 0 ∨
      mW.textures RawTextureUsage.roughness ≥ 0 ∨
      mW.textures RawTextureUsage.occlusion ≥ 0) ∧
    ¬(mW.textures RawTextureUsage.occlusion ≥ 0 ∧
      mW.textures RawTextureUsage.roughness ≥ 0 ∧
      mW.textures RawTextureUsage.metallic ≥ 0 ∧
      texturesAreSame fileLocW mW RawTextureUsage.metallic RawTextureUsage.roughness = true ∧
      texturesAreSame fileLocW mW RawTextureUsage.metallic RawTextureUsage.occlusion = true) ∧
    (∃ cc, (resolveMaterial sqrtfW tbmW fileLocW mW).combineCalls = [cc] ∧
      cc.tag = "ao_met_rough" ∧
      cc.srgb = false ∧
      cc.sources = [mW.textures RawTextureUsage.occlusion,
        mW.textures RawTextureUsage.roughness, mW.textures RawTextureUsage.metallic] ∧
      (∀ pixels : List Vec4q,
        cc.combiner pixels =
          (if mW.textures RawTextureUsage.occlusion ≥ 0
            then q4r (pixels.getD 0 neutralPixel) else 1,
           (if propsW.invertRoughnessMap then
              1 - q4g (pixels.getD 1 neutralPixel) *
                (if mW.textures RawTextureUsage.roughness ≥ 0 then 1 else propsW.roughness)
            else
              q4g (pixels.getD 1 neutralPixel) *
                (if mW.textures RawTextureUsage.roughness ≥ 0 then 1 else propsW.roughness)),
           q4b (pixels.getD 2 neutralPixel) *
             (if mW.textures RawTextureUsage.metallic ≥ 0 then 1 else propsW.metallic),
           1)) ∧
      (resolveMaterial sqrtfW tbmW fileLocW mW).pbr.metRoughTex =
        tbmW.combine cc.sources cc.tag cc.combiner cc.srgb ∧
      (resolveMaterial sqrtfW tbmW fileLocW mW).aoMetRoughTex =
        tbmW.combine cc.sources cc.tag cc.combiner cc.srgb ∧
      ((resolveMaterial sqrtfW tbmW fileLocW mW).aoMetRoughTex ≠ none →
        (resolveMaterial sqrtfW tbmW fileLocW mW).occlusionTexture =
          (resolveMaterial sqrtfW tbmW fileLocW mW).aoMetRoughTex)) :=
  ⟨rfl, Or.inl (by decide), fun h => absurd h.1 (by decide),
    c3_ao_met_rough_combine sqrtfW tbmW fileLocW mW propsW rfl (Or.inl (by decide))
      (fun h => absurd h.1 (by decide))⟩

/-- C5: a traditional Blinn or Phong material gets metallic fixed at 0.4 and
roughness `sqrt(2/(2+shininess))` when the shininess-texture combine yields
nothing; when it yields a texture, that texture becomes the
metallic-roughness texture and both factors reset to 1; the recorded combine
call maps a pixel to `(0, sqrt(2/(2+shininess*pixel.R)), 0.4, 1)`; any other
traditional shading model falls back to metallic 0.2 and roughness 0.8. -/
theorem c5_traditional_pbr (sqrtf : Rat → Rat) (tbm : TextureBuilderModel)
    (m : RawMaterialModel) (sh : RawShadingModel) (props : RawTraditionalMatProps) :
    ((sh = RawShadingModel.blinn ∨ sh = RawShadingModel.phong) →
      (tbm.combine [m.textures RawTextureUsage.shininess] "ao_met_rough"
          (blinnPhongCombiner sqrtf props) false = none →
        (resolveTraditional sqrtf tbm m sh props).pbr.metallic = 2 / 5 ∧
        (resolveTraditional sqrtf tbm m sh props).pbr.roughness =
          sqrtf (2 / (2 + props.shininess)) ∧
        (resolveTraditional sqrtf tbm m sh props).pbr.metRoughTex = none) ∧
      (∀ tex, tbm.combine [m.textures RawTextureUsage.shininess] "ao_met_rough"
          (blinnPhongCombiner sqrtf props) false = some tex →
        (resolveTraditional sqrtf tbm m sh props).pbr.metallic = 1 ∧
        (resolveTraditional sqrtf tbm m sh props).pbr.roughness = 1 ∧
        (resolveTraditional sqrtf tbm m sh props).pbr.metRoughTex = some tex) ∧
      (∃ cc, (resolveTraditional sqrtf tbm m sh props).combineCalls = [cc] ∧
        cc.sources = [m.textures RawTextureUsage.shininess] ∧
        cc.tag = "ao_met_rough" ∧ cc.srgb = false ∧
        ∀ pixels : List Vec4q, cc.combiner pixels =
          (0, sqrtf (2 / (2 + props.shininess * q4r (pixels.getD 0 neutralPixel))),
            2 / 5, 1))) ∧
    (¬(sh = RawShadingModel.blinn ∨ sh = RawShadingModel.phong) →
      (resolveTraditional sqrtf tbm m sh props).pbr.metallic = 1 / 5 ∧
      (resolveTraditional sqrtf tbm m sh props).pbr.roughness = 4 / 5 ∧
      (resolveTraditional sqrtf tbm m sh props).combineCalls = []) := by
  constructor
  · intro hbp
    unfold resolveTraditional
    rw [if_pos hbp]
    dsimp only
    refine ⟨?_, ?_, ?_⟩
    · intro hnone
      rw [hnone]
      simp [getRoughness]
    · intro tex htex
      rw [htex]
      simp
    · exact ⟨_, rfl, rfl, rfl, rfl, fun pixels => rfl⟩
  · intro hn
    unfold resolveTraditional
    rw [if_neg hn]
    exact ⟨rfl, rfl, rfl⟩

/-! ## Lemmas on the animation loop -/

theorem foldl_min_le : ∀ (xs : List Rat) (a : Rat),
    (xs.foldl min a = a ∨ xs.foldl min a ∈ xs) ∧ xs.foldl min a ≤ a ∧
      ∀ x ∈ xs, xs.foldl min a ≤ x := by
  intro xs
  induction xs with
  | nil => intro a; exact ⟨Or.inl rfl, le_refl a, by simp⟩
  | cons y ys ih =>
    intro a
    obtain ⟨h1, h2, h3⟩ := ih (min a y)
    simp only [List.foldl_cons]
    refine ⟨?_, h2.trans (min_le_left a y), ?_⟩
    · rcases h1 with h | h
      · rcases min_choice a y with hc | hc
        · exact Or.inl (h.trans hc)
        · exact Or.inr (by rw [h, hc]; exact List.mem_cons_self y ys)
      · exact Or.inr (List.mem_cons_of_mem y h)
    · intro x hx
      rcases List.mem_cons.mp hx with rfl | hx
      · exact h2.trans (min_le_right a x)
      · exact h3 x hx

theorem foldl_max_le : ∀ (xs : List Rat) (a : Rat),
    (xs.foldl max a = a ∨ xs.foldl max a ∈ xs) ∧ a ≤ xs.foldl max a ∧
      ∀ x ∈ xs, x ≤ xs.foldl max a := by
  intro xs
  induction xs with
  | nil => intro a; exact ⟨Or.inl rfl, le_refl a, by simp⟩
  | cons y ys ih =>
    intro a
    obtain ⟨h1, h2, h3⟩ := ih (max a y)
    simp only [List.foldl_cons]
    refine ⟨?_, (le_max_left a y).trans h2, ?_⟩
    · rcases h1 with h | h
      · rcases max_choice a y with hc | hc
        · exact Or.inl (h.trans hc)
        · exact Or.inr (by rw [h, hc]; exact List.mem_cons_self y ys)
      · exact Or.inr (List.mem_cons_of_mem y h)
    · intro x hx
      rcases List.mem_cons.mp hx with rfl | hx
      · exact (le_max_right a x).trans h2
      · exact h3 x hx

theorem minElement_spec (l : List Rat) (hl : l ≠ []) :
    minElement l ∈ l ∧ ∀ x ∈ l, minElement l ≤ x := by
  match l, hl with
  | x :: xs, _ =>
    obtain ⟨h1, h2, h3⟩ := foldl_min_le xs x
    refine ⟨?_, ?_⟩
    · rcases h1 with h | h
      · rw [show minElement (x :: xs) = xs.foldl min x from rfl, h]
        exact List.mem_cons_self x xs
      · exact List.mem_cons_of_mem x
          (by rw [show minElement (x :: xs) = xs.foldl min x from rfl]; exact h)
    · intro z hz
      rcases List.mem_cons.mp hz with rfl | hz
      · exact h2
      · exact h3 z hz

theorem maxElement_spec (l : List Rat) (hl : l ≠ []) :
    maxElement l ∈ l ∧ ∀ x ∈ l, x ≤ maxElement l := by
  match l, hl with
  | x :: xs, _ =>
    obtain ⟨h1, h2, h3⟩ := foldl_max_le xs x
    refine ⟨?_, ?_⟩
    · rcases h1 with h | h
      · rw [show maxElement (x :: xs) = xs.foldl max x from rfl, h]
        exact List.mem_cons_self x xs
      · exact List.mem_cons_of_mem x
          (by rw [show maxElement (x :: xs) = xs.foldl max x from rfl]; exact h)
    · intro z hz
      rcases List.mem_cons.mp hz with rfl | hz
      · exact h2
      · exact h3 z hz

theorem extendsA_refl (st : AnimState) : ExtendsA st st := ⟨[], by simp⟩

theorem extendsA_trans {c b a : AnimState} (h1 : ExtendsA c b) (h2 : ExtendsA b a) :
    ExtendsA c a := by
  obtain ⟨t1, ht1⟩ := h1
  obtain ⟨t2, ht2⟩ := h2
  exact ⟨t2 ++ t1, by rw [ht1, ht2, List.append_assoc]⟩

theorem extendsA_add (st : AnimState) (t : GltfType) (c : ViewContent) :
    ExtendsA (st.addAccessorAndView t c).1 st := ⟨_, rfl⟩

theorem addAccessorAndView_snd (st : AnimState) (t : GltfType) (c : ViewContent) :
    (st.addAccessorAndView t c).2 = st.accessors.length := rfl

theorem addAccessorAndView_accessors (st : AnimState) (t : GltfType) (c : ViewContent) :
    (st.addAccessorAndView t c).1.accessors =
      st.accessors ++ [⟨st.accessors.length, t, c.elemCount, "", none, c, [], []⟩] := rfl

theorem setAccessorMinMax_accessors (st : AnimState) (aIx : Nat) (minV maxV : List Rat) :
    (st.setAccessorMinMax aIx minV maxV).accessors =
      st.accessors.set aIx { st.accessors.getD aIx AccessorData.dflt with
        minVals := minV, maxVals := maxV } := rfl

theorem processAnimChannel_extends (st : AnimState) (c : RawChannelModel) :
    ExtendsA (processAnimChannel st c).1 st ∧
    (processAnimChannel st c).1.animations = st.animations ∧
    (processAnimChannel st c).1.messages = st.messages := by
  unfold processAnimChannel
  dsimp only
  split <;> (try dsimp only) <;> split <;> (try dsimp only) <;> split <;>
    (try dsimp only) <;> split <;> (try dsimp only) <;>
    (refine ⟨?_, by rfl, by rfl⟩;
      repeat (first | exact extendsA_refl _ | refine extendsA_trans (extendsA_add _ _ _) ?_))

theorem processAnimChannels_extends :
    ∀ (cs : List RawChannelModel) (st : AnimState),
      ExtendsA (processAnimChannels st cs).1 st ∧
      (processAnimChannels st cs).1.animations = st.animations ∧
      (processAnimChannels st cs).1.messages = st.messages := by
  intro cs
  induction cs with
  | nil => intro st; exact ⟨extendsA_refl st, rfl, rfl⟩
  | cons c cs ih =>
    intro st
    obtain ⟨h1, h2, h3⟩ := ih (processAnimChannel st c).1
    obtain ⟨g1, g2, g3⟩ := processAnimChannel_extends st c
    exact ⟨extendsA_trans h1 g1, h2.trans g2, h3.trans g3⟩

/-- C6 (amended): an animation with at least one channel creates exactly one
new animation entry, whose shared input accessor is a `SCALAR` float accessor
over the keyframe times; its `min` is the minimum of the time samples and its
`max` their maximum (not the first and last samples, which the code does not
use). -/
theorem c6_anim_input_accessor (st : AnimState) (a : RawAnimation)
    (hch : a.channels ≠ []) (hts : a.times ≠ []) :
    ∃ acc,
      (processAnimation st a).accessors.getD st.accessors.length AccessorData.dflt = acc ∧
      acc.accType = GLT_FLOAT ∧
      acc.content = ViewContent.scalarArr a.times ∧
      acc.count = a.times.length ∧
      acc.minVals = [minElement a.times] ∧
      acc.maxVals = [maxElement a.times] ∧
      minElement a.times ∈ a.times ∧ (∀ x ∈ a.times, minElement a.times ≤ x) ∧
      maxElement a.times ∈ a.times ∧ (∀ x ∈ a.times, x ≤ maxElement a.times) ∧
      (processAnimation st a).animations.length = st.animations.length + 1 ∧
      ((processAnimation st a).animations.getD st.animations.length animDflt).inputIx =
        st.accessors.length ∧
      ((processAnimation st a).animations.getD st.animations.length animDflt).name =
        a.name := by
  have hbe : a.channels.isEmpty = false := by
    cases h : a.channels
    · exact absurd h hch
    · rfl
  unfold processAnimation
  rw [hbe]
  simp only [Bool.false_eq_true, if_false]
  try dsimp only
  have hA1 : ((st.addAccessorAndView GLT_FLOAT (ViewContent.scalarArr a.times)).1.setAccessorMinMax
      (st.addAccessorAndView GLT_FLOAT (ViewContent.scalarArr a.times)).2
      [minElement a.times] [maxElement a.times]).accessors =
      st.accessors ++ [⟨st.accessors.length, GLT_FLOAT,
        (ViewContent.scalarArr a.times).elemCount, "", none,
        ViewContent.scalarArr a.times, [minElement a.times], [maxElement a.times]⟩] := by
    rw [setAccessorMinMax_accessors, addAccessorAndView_snd, addAccessorAndView_accessors,
      List.getD_eq_getElem?_getD, List.getElem?_concat_length]
    rw [List.set_eq_take_cons_drop]
    · rw [List.take_left, List.drop_of_length_le (by simp)]
      rfl
    · simp
  set X := (st.addAccessorAndView GLT_FLOAT (ViewContent.scalarArr a.times)).1.setAccessorMinMax
    (st.addAccessorAndView GLT_FLOAT (ViewContent.scalarArr a.times)).2
    [minElement a.times] [maxElement a.times] with hXdef
  have hanimX : X.animations = st.animations := rfl
  obtain ⟨⟨tl, htl⟩, hanim2, -⟩ := processAnimChannels_extends a.channels X
  refine ⟨⟨st.accessors.length, GLT_FLOAT, (ViewContent.scalarArr a.times).elemCount, "",
      none, ViewContent.scalarArr a.times, [minElement a.times], [maxElement a.times]⟩,
    ?_, rfl, rfl, rfl, rfl, rfl, (minElement_spec a.times hts).1,
    (minElement_spec a.times hts).2, (maxElement_spec a.times hts).1,
    (maxElement_spec a.times hts).2, ?_, ?_, ?_⟩
  · show ((processAnimChannels X a.channels).1.accessors).getD st.accessors.length
      AccessorData.dflt = _
    rw [htl, hA1, List.getD_eq_getElem?_getD,
      List.getElem?_append_left
        (show st.accessors.length < (st.accessors ++ [(⟨st.accessors.length, GLT_FLOAT,
          (ViewContent.scalarArr a.times).elemCount, "", none, ViewContent.scalarArr a.times,
          [minElement a.times], [maxElement a.times]⟩ : AccessorData)]).length by simp),
      List.getElem?_concat_length]
    rfl
  · show ((processAnimChannels X a.channels).1.animations ++ [_]).length =
      st.animations.length + 1
    rw [List.length_append, hanim2, hanimX]
    rfl
  · show (((processAnimChannels X a.channels).1.animations ++ [_]).getD
      st.animations.length animDflt).inputIx = st.accessors.length
    rw [List.getD_eq_getElem?_getD, hanim2, hanimX, List.getElem?_concat_length]
    rfl
  · show (((processAnimChannels X a.channels).1.animations ++ [_]).getD
      st.animations.length animDflt).name = a.name
    rw [List.getD_eq_getElem?_getD, hanim2, hanimX, List.getElem?_concat_length]
    rfl

theorem c6_anim_input_accessor_counterexample :
    ((processAnimation stA aC6).accessors.getD 0 AccessorData.dflt).minVals =
      [minElement aC6.times] ∧
    ((processAnimation stA aC6).accessors.getD 0 AccessorData.dflt).maxVals =
      [maxElement aC6.times] ∧
    minElement aC6.times = 1 ∧
    maxElement aC6.times = 3 ∧
    aC6.times.getD 0 0 = 3 ∧
    aC6.times.getD (aC6.times.length - 1) 0 = 2 ∧
    ((processAnimation stA aC6).accessors.getD 0 AccessorData.dflt).minVals ≠
      [aC6.times.getD 0 0] ∧
    ((processAnimation stA aC6).accessors.getD 0 AccessorData.dflt).maxVals ≠
      [aC6.times.getD (aC6.times.length - 1) 0] := by
  refine ⟨rfl, rfl, by decide, by decide, by decide, by decide, ?_, ?_⟩
  · intro h
    have h2 : minElement aC6.times = aC6.times.getD 0 0 := (List.cons.inj h).1
    exact absurd h2 (by decide)
  · intro h
    have h2 : maxElement aC6.times = aC6.times.getD (aC6.times.length - 1) 0 :=
      (List.cons.inj h).1
    exact absurd h2 (by decide)

theorem c6_anim_input_accessor_witness :
    aC6.channels ≠ [] ∧ aC6.times ≠ [] ∧
    (∃ acc,
      (processAnimation stA aC6).accessors.getD stA.accessors.length AccessorData.dflt =
        acc ∧
      acc.accType = GLT_FLOAT ∧
      acc.content = ViewContent.scalarArr aC6.times ∧
      acc.count = aC6.times.length ∧
      acc.minVals = [minElement aC6.times] ∧
      acc.maxVals = [maxElement aC6.times] ∧
      minElement aC6.times ∈ aC6.times ∧ (∀ x ∈ aC6.times, minElement aC6.times ≤ x) ∧
      maxElement aC6.times ∈ aC6.times ∧ (∀ x ∈ aC6.times, x ≤ maxElement aC6.times) ∧
      (processAnimation stA aC6).animations.length = stA.animations.length + 1 ∧
      ((processAnimation stA aC6).animations.getD stA.animations.length animDflt).inputIx =
        stA.accessors.length ∧
      ((processAnimation stA aC6).animations.getD stA.animations.length animDflt).name =
        aC6.name) :=
  ⟨List.cons_ne_nil _ _, List.cons_ne_nil _ _,
    c6_anim_input_accessor stA aC6 (List.cons_ne_nil _ _) (List.cons_ne_nil _ _)⟩

/-- C7 (amended): an animation with no channels is skipped: no accessor and
no animation entity is created, and the exact diagnostic
"Animation \x27name\x27 has no channels, skipped\n" is appended, which does
not carry the "Warning:" prefix; a camera whose node id resolves to no node
is not attached to any node (the nodes are left unchanged, the camera entity
is still held), and its diagnostic does carry the "Warning:" prefix. -/
theorem c7_skip_diagnostics (st : AnimState) (a : RawAnimation)
    (nodesById : List (Int × Nat)) (cam : RawCameraModel) (nodes : List NodeData)
    (cams : List CameraEntry) (msgs : List String)
    (hch : a.channels = [])
    (hlook : nodesById.lookup cam.nodeId = none) :
    ((processAnimation st a).accessors = st.accessors ∧
      (processAnimation st a).animations = st.animations ∧
      (processAnimation st a).messages =
        st.messages ++ ["Animation \x27" ++ a.name ++ "\x27 has no channels, skipped\n"] ∧
      ¬ startsWithWarning
        ("Animation \x27" ++ a.name ++ "\x27 has no channels, skipped\n")) ∧
    ((processCamera nodesById cam nodes cams msgs).1 = nodes ∧
      (processCamera nodesById cam nodes cams msgs).2.1 =
        cams ++ [⟨cams.length, cam.name⟩] ∧
      (processCamera nodesById cam nodes cams msgs).2.2 =
        msgs ++ ["Warning: Camera node id " ++ toString cam.nodeId ++
          " does not exist.\n"] ∧
      startsWithWarning
        ("Warning: Camera node id " ++ toString cam.nodeId ++ " does not exist.\n")) := by
  constructor
  · have hbe : a.channels.isEmpty = true := by rw [hch]; rfl
    unfold processAnimation
    rw [hbe]
    simp only [if_true]
    refine ⟨by trivial, by trivial, by trivial, ?_⟩
    rintro ⟨rest, h⟩
    have h1 : List.head? ("Animation \x27" ++ a.name ++
        "\x27 has no channels, skipped\n").data = some 'A' := by
      rw [String.data_append, String.data_append]
      rfl
    rw [h] at h1
    have h2 : List.head? (("Warning:").data ++ rest) = some 'W' := rfl
    rw [h2] at h1
    exact absurd (Option.some.inj h1) (by decide)
  · unfold processCamera
    dsimp only
    rw [hlook]
    refine ⟨rfl, rfl, rfl, ?_⟩
    refine ⟨(" Camera node id ").data ++ (toString cam.nodeId).data ++
      (" does not exist.\n").data, ?_⟩
    rw [String.data_append, String.data_append]
    rw [show ("Warning: Camera node id ").data =
      ("Warning:").data ++ (" Camera node id ").data from rfl]
    simp [List.append_assoc]

theorem c7_skip_diagnostics_counterexample :
    (processAnimation stA aC7).animations = [] ∧
    (processAnimation stA aC7).accessors = [] ∧
    (processAnimation stA aC7).messages =
      ["Animation \x27empty\x27 has no channels, skipped\n"] ∧
    ¬ startsWithWarning ("Animation \x27empty\x27 has no channels, skipped\n") ∧
    (processCamera [] camW [] [] []).2.2 =
      ["Warning: Camera node id 5 does not exist.\n"] ∧
    startsWithWarning ("Warning: Camera node id 5 does not exist.\n") := by
  refine ⟨rfl, rfl, rfl, ?_, rfl, ?_⟩
  · rintro ⟨rest, h⟩
    have h1 : List.head? ("Animation \x27empty\x27 has no channels, skipped\n").data =
      some 'A' := rfl
    rw [h] at h1
    have h2 : List.head? (("Warning:").data ++ rest) = some 'W' := rfl
    rw [h2] at h1
    exact absurd (Option.some.inj h1) (by decide)
  · exact ⟨(" Camera node id 5 does not exist.\n").data, rfl⟩

theorem c7_skip_diagnostics_witness :
    aC7.channels = [] ∧ (List.lookup camW.nodeId ([] : List (Int × Nat))) = none ∧
    (((processAnimation stA aC7).accessors = stA.accessors ∧
      (processAnimation stA aC7).animations = stA.animations ∧
      (processAnimation stA aC7).messages =
        stA.messages ++ ["Animation \x27" ++ aC7.name ++
          "\x27 has no channels, skipped\n"] ∧
      ¬ startsWithWarning
        ("Animation \x27" ++ aC7.name ++ "\x27 has no channels, skipped\n")) ∧
    ((processCamera [] camW [] [] []).1 = [] ∧
      (processCamera [] camW [] [] []).2.1 = [] ++ [⟨List.length ([] : List CameraEntry),
        camW.name⟩] ∧
      (processCamera [] camW [] [] []).2.2 =
        [] ++ ["Warning: Camera node id " ++ toString camW.nodeId ++
          " does not exist.\n"] ∧
      startsWithWarning
        ("Warning: Camera node id " ++ toString camW.nodeId ++ " does not exist.\n"))) :=
  ⟨rfl, rfl, c7_skip_diagnostics stA aC7 [] camW [] [] [] rfl rfl⟩

/-! ## Lemmas on the node/light holders -/

theorem foldl_hold_length (mk : Nat → α → β) :
    ∀ (raws : List α) (acc : List β),
      (raws.foldl (fun acc x => acc ++ [mk acc.length x]) acc).length =
        acc.length + raws.length := by
  intro raws
  induction raws with
  | nil => intro acc; simp
  | cons x xs ih =>
    intro acc
    rw [List.foldl_cons, ih]
    simp only [List.length_append, List.length_cons, List.length_nil]
    omega

theorem foldl_hold_stable (mk : Nat → α → β) (d : β) :
    ∀ (raws : List α) (acc : List β) (i : Nat), i < acc.length →
      (raws.foldl (fun acc x => acc ++ [mk acc.length x]) acc).getD i d = acc.getD i d := by
  intro raws
  induction raws with
  | nil => intro acc i hi; rfl
  | cons x xs ih =>
    intro acc i hi
    rw [List.foldl_cons, ih (acc ++ [mk acc.length x]) i (by simp; omega)]
    rw [List.getD_eq_getElem?_getD, List.getD_eq_getElem?_getD,
      List.getElem?_append_left hi]

theorem foldl_hold_getD (mk : Nat → α → β) (d : β) (dα : α) :
    ∀ (raws : List α) (acc : List β) (j : Nat), j < raws.length →
      (raws.foldl (fun acc x => acc ++ [mk acc.length x]) acc).getD (acc.length + j) d =
        mk (acc.length + j) (raws.getD j dα) := by
  intro raws
  induction raws with
  | nil => intro acc j hj; exact absurd hj (by simp)
  | cons x xs ih =>
    intro acc j hj
    rw [List.foldl_cons]
    match j with
    | 0 =>
      rw [foldl_hold_stable mk d xs (acc ++ [mk acc.length x]) (acc.length + 0) (by simp)]
      rw [Nat.add_zero, List.getD_eq_getElem?_getD, List.getElem?_concat_length]
      rfl
    | j + 1 =>
      have hj2 : j < xs.length := by
        simp only [List.length_cons] at hj
        omega
      have hix : acc.length + (j + 1) = (acc ++ [mk acc.length x]).length + j := by
        simp only [List.length_append, List.length_cons, List.length_nil]
        omega
      rw [hix, ih (acc ++ [mk acc.length x]) j hj2]
      rfl

theorem holdFold_length (mk : Nat → α → β) (raws : List α) :
    (holdFold mk raws).length = raws.length := by
  have h := foldl_hold_length mk raws []
  simpa [holdFold] using h

theorem holdFold_getD (mk : Nat → α → β) (d : β) (dα : α) (raws : List α) (i : Nat)
    (hi : i < raws.length) :
    (holdFold mk raws).getD i d = mk i (raws.getD i dα) := by
  have h := foldl_hold_getD mk d dα raws [] i hi
  simpa [holdFold] using h

theorem attachMeshes_aux (raws : List RawNodeModel) (meshBySurfaceId : List (Int × Nat)) :
    ∀ (n : Nat) (nds : List NodeData),
      ((List.range n).foldl
        (fun nds i =>
          let node := raws.getD i RawNodeModel.dflt
          if node.surfaceId > 0 then
            nds.set i ({ nds.getD i NodeData.dflt with
              mesh := meshBySurfaceId.lookup node.surfaceId })
          else nds)
        nds).length = nds.length ∧
      (∀ i, n ≤ i →
        ((List.range n).foldl
          (fun nds i =>
            let node := raws.getD i RawNodeModel.dflt
            if node.surfaceId > 0 then
              nds.set i ({ nds.getD i NodeData.dflt with
                mesh := meshBySurfaceId.lookup node.surfaceId })
            else nds)
          nds).getD i NodeData.dflt = nds.getD i NodeData.dflt) ∧
      (∀ i, i < n → i < nds.length →
        ((List.range n).foldl
          (fun nds i =>
            let node := raws.getD i RawNodeModel.dflt
            if node.surfaceId > 0 then
              nds.set i ({ nds.getD i NodeData.dflt with
                mesh := meshBySurfaceId.lookup node.surfaceId })
            else nds)
          nds).getD i NodeData.dflt =
          (if (raws.getD i RawNodeModel.dflt).surfaceId > 0 then
            { nds.getD i NodeData.dflt with
              mesh := meshBySurfaceId.lookup (raws.getD i RawNodeModel.dflt).surfaceId }
          else nds.getD i NodeData.dflt)) := by
  intro n
  induction n with
  | zero =>
    intro nds
    exact ⟨rfl, fun i _ => rfl, fun i hi _ => absurd hi (Nat.not_lt_zero i)⟩
  | succ n ih =>
    intro nds
    obtain ⟨h1, h2, h3⟩ := ih nds
    simp only [List.range_succ, List.foldl_append, List.foldl_cons, List.foldl_nil]
    try dsimp only
    split
    case isTrue hp =>
      refine ⟨?_, ?_, ?_⟩
      · rw [List.length_set]
        exact h1
      · intro i hni
        rw [List.getD_eq_getElem?_getD, List.getElem?_set_ne (by omega),
          ← List.getD_eq_getElem?_getD]
        exact h2 i (by omega)
      · intro i hi hilen
        rcases Nat.lt_succ_iff_lt_or_eq.mp hi with hi2 | rfl
        · rw [List.getD_eq_getElem?_getD, List.getElem?_set_ne (by omega),
            ← List.getD_eq_getElem?_getD]
          exact h3 i hi2 hilen
        · rw [List.getD_eq_getElem?_getD,
            List.getElem?_set_self (by rw [h1]; exact hilen)]
          rw [if_pos hp, h2 i le_rfl]
          rfl
    case isFalse hp =>
      refine ⟨h1, fun i hni => h2 i (by omega), ?_⟩
      intro i hi hilen
      rcases Nat.lt_succ_iff_lt_or_eq.mp hi with hi2 | rfl
      · exact h3 i hi2 hilen
      · rw [if_neg hp]
        exact h2 i le_rfl

theorem attachLights_aux (raws : List RawNodeModel) :
    ∀ (n : Nat) (nds : List NodeData),
      ((List.range n).foldl
        (fun nds i =>
          let node := raws.getD i RawNodeModel.dflt
          if node.lightIx ≥ 0 then
            nds.set i ({ nds.getD i NodeData.dflt with light := some node.lightIx.toNat })
          else nds)
        nds).length = nds.length ∧
      (∀ i, n ≤ i →
        ((List.range n).foldl
          (fun nds i =>
            let node := raws.getD i RawNodeModel.dflt
            if node.lightIx ≥ 0 then
              nds.set i ({ nds.getD i NodeData.dflt with light := some node.lightIx.toNat })
            else nds)
          nds).getD i NodeData.dflt = nds.getD i NodeData.dflt) ∧
      (∀ i, i < n → i < nds.length →
        ((List.range n).foldl
          (fun nds i =>
            let node := raws.getD i RawNodeModel.dflt
            if node.lightIx ≥ 0 then
              nds.set i ({ nds.getD i NodeData.dflt with light := some node.lightIx.toNat })
            else nds)
          nds).getD i NodeData.dflt =
          (if (raws.getD i RawNodeModel.dflt).lightIx ≥ 0 then
            { nds.getD i NodeData.dflt with
              light := some (raws.getD i RawNodeModel.dflt).lightIx.toNat }
          else nds.getD i NodeData.dflt)) := by
  intro n
  induction n with
  | zero =>
    intro nds
    exact ⟨rfl, fun i _ => rfl, fun i hi _ => absurd hi (Nat.not_lt_zero i)⟩
  | succ n ih =>
    intro nds
    obtain ⟨h1, h2, h3⟩ := ih nds
    simp only [List.range_succ, List.foldl_append, List.foldl_cons, List.foldl_nil]
    try dsimp only
    split
    case isTrue hp =>
      refine ⟨?_, ?_, ?_⟩
      · rw [List.length_set]
        exact h1
      · intro i hni
        rw [List.getD_eq_getElem?_getD, List.getElem?_set_ne (by omega),
          ← List.getD_eq_getElem?_getD]
        exact h2 i (by omega)
      · intro i hi hilen
        rcases Nat.lt_succ_iff_lt_or_eq.mp hi with hi2 | rfl
        · rw [List.getD_eq_getElem?_getD, List.getElem?_set_ne (by omega),
            ← List.getD_eq_getElem?_getD]
          exact h3 i hi2 hilen
        · rw [List.getD_eq_getElem?_getD,
            List.getElem?_set_self (by rw [h1]; exact hilen)]
          rw [if_pos hp, h2 i le_rfl]
          rfl
    case isFalse hp =>
      refine ⟨h1, fun i hni => h2 i (by omega), ?_⟩
      intro i hi hilen
      rcases Nat.lt_succ_iff_lt_or_eq.mp hi with hi2 | rfl
      · exact h3 i hi2 hilen
      · rw [if_neg hp]
        exact h2 i le_rfl

/-- C10: the node held at position `i` is built from raw node `i` and is
stamped with holder index `i` (name, TRS, joint flag copied); the mesh
assignment indexes the holder by the raw node index and stores the
surface-id lookup exactly for nodes with a positive surface id; the light
attachment stores `lightIx` (the raw light index) directly as the glTF light
index, which is correct because `buildLights` holds raw light `j` at glTF
position `j`. -/
theorem c10_node_alignment (raws : List RawNodeModel) (mbs : List (Int × Nat)) (i : Nat)
    (hi : i < raws.length) :
    (nodePipeline raws mbs).length = raws.length ∧
    (((nodePipeline raws mbs).getD i NodeData.dflt).ix = i ∧
      ((nodePipeline raws mbs).getD i NodeData.dflt).name =
        (raws.getD i RawNodeModel.dflt).name ∧
      ((nodePipeline raws mbs).getD i NodeData.dflt).translation =
        (raws.getD i RawNodeModel.dflt).translation ∧
      ((nodePipeline raws mbs).getD i NodeData.dflt).rotation =
        (raws.getD i RawNodeModel.dflt).rotation ∧
      ((nodePipeline raws mbs).getD i NodeData.dflt).scale =
        (raws.getD i RawNodeModel.dflt).scale ∧
      ((nodePipeline raws mbs).getD i NodeData.dflt).isJoint =
        (raws.getD i RawNodeModel.dflt).isJoint ∧
      ((nodePipeline raws mbs).getD i NodeData.dflt).mesh =
        (if (raws.getD i RawNodeModel.dflt).surfaceId > 0 then
          mbs.lookup (raws.getD i RawNodeModel.dflt).surfaceId else none) ∧
      ((nodePipeline raws mbs).getD i NodeData.dflt).light =
        (if (raws.getD i RawNodeModel.dflt).lightIx ≥ 0 then
          some (raws.getD i RawNodeModel.dflt).lightIx.toNat else none)) ∧
    (∀ ls : List RawLightModel,
      (buildLights ls).length = ls.length ∧
      ∀ j, j < ls.length →
        (buildLights ls).getD j ⟨0, "", (0, 0, 0), 0⟩ =
          ⟨j, (ls.getD j ⟨"", (0, 0, 0), 0⟩).name, (ls.getD j ⟨"", (0, 0, 0), 0⟩).color,
            (ls.getD j ⟨"", (0, 0, 0), 0⟩).intensity / 100⟩) := by
  have hlen0 : (raw2GltfNodes raws).length = raws.length := holdFold_length mkNodeData raws
  have h0 : (raw2GltfNodes raws).getD i NodeData.dflt =
      mkNodeData i (raws.getD i RawNodeModel.dflt) :=
    holdFold_getD mkNodeData NodeData.dflt RawNodeModel.dflt raws i hi
  obtain ⟨m1, m2, m3⟩ := attachMeshes_aux raws mbs raws.length (raw2GltfNodes raws)
  have m1a : (attachMeshes raws mbs (raw2GltfNodes raws)).length =
      (raw2GltfNodes raws).length := m1
  have m3a : (attachMeshes raws mbs (raw2GltfNodes raws)).getD i NodeData.dflt =
      (if (raws.getD i RawNodeModel.dflt).surfaceId > 0 then
        { (raw2GltfNodes raws).getD i NodeData.dflt with
          mesh := mbs.lookup (raws.getD i RawNodeModel.dflt).surfaceId }
      else (raw2GltfNodes raws).getD i NodeData.dflt) :=
    m3 i hi (by rw [hlen0]; exact hi)
  obtain ⟨l1, l2, l3⟩ := attachLights_aux raws raws.length
    (attachMeshes raws mbs (raw2GltfNodes raws))
  have l1a : (attachLights raws (attachMeshes raws mbs (raw2GltfNodes raws))).length =
      (attachMeshes raws mbs (raw2GltfNodes raws)).length := l1
  have l3a : (attachLights raws (attachMeshes raws mbs
      (raw2GltfNodes raws))).getD i NodeData.dflt =
      (if (raws.getD i RawNodeModel.dflt).lightIx ≥ 0 then
        { (attachMeshes raws mbs (raw2GltfNodes raws)).getD i NodeData.dflt with
          light := some (raws.getD i RawNodeModel.dflt).lightIx.toNat }
      else (attachMeshes raws mbs (raw2GltfNodes raws)).getD i NodeData.dflt) :=
    l3 i hi (by rw [m1a, hlen0]; exact hi)
  have hnp : nodePipeline raws mbs =
      attachLights raws (attachMeshes raws mbs (raw2GltfNodes raws)) := rfl
  refine ⟨?_, ?_, ?_⟩
  · rw [hnp]
    exact (l1a.trans m1a).trans hlen0
  · rw [hnp, l3a, m3a, h0]
    by_cases hL : (raws.getD i RawNodeModel.dflt).lightIx ≥ 0 <;>
      by_cases hS : (raws.getD i RawNodeModel.dflt).surfaceId > 0
    · rw [if_pos hL, if_pos hS, if_pos hS, if_pos hL]
      simp [mkNodeData]
    · rw [if_pos hL, if_neg hS, if_neg hS, if_pos hL]
      simp [mkNodeData]
    · rw [if_neg hL, if_pos hS, if_pos hS, if_neg hL]
      simp [mkNodeData]
    · rw [if_neg hL, if_neg hS, if_neg hS, if_neg hL]
      simp [mkNodeData]
  · intro ls
    exact ⟨holdFold_length
        (fun (i : Nat) (l : RawLightModel) =>
          (⟨i, l.name, l.color, l.intensity / 100⟩ : LightData)) ls,
      fun j hj => holdFold_getD
        (fun (i : Nat) (l : RawLightModel) =>
          (⟨i, l.name, l.color, l.intensity / 100⟩ : LightData))
        ⟨0, "", (0, 0, 0), 0⟩ ⟨"", (0, 0, 0), 0⟩ ls j hj⟩

theorem c10_node_alignment_witness :
    0 < [nodeW].length ∧
    ((nodePipeline [nodeW] mbsW).length = [nodeW].length ∧
      (((nodePipeline [nodeW] mbsW).getD 0 NodeData.dflt).ix = 0 ∧
        ((nodePipeline [nodeW] mbsW).getD 0 NodeData.dflt).name =
          (([nodeW]).getD 0 RawNodeModel.dflt).name ∧
        ((nodePipeline [nodeW] mbsW).getD 0 NodeData.dflt).translation =
          (([nodeW]).getD 0 RawNodeModel.dflt).translation ∧
        ((nodePipeline [nodeW] mbsW).getD 0 NodeData.dflt).rotation =
          (([nodeW]).getD 0 RawNodeModel.dflt).rotation ∧
        ((nodePipeline [nodeW] mbsW).getD 0 NodeData.dflt).scale =
          (([nodeW]).getD 0 RawNodeModel.dflt).scale ∧
        ((nodePipeline [nodeW] mbsW).getD 0 NodeData.dflt).isJoint =
          (([nodeW]).getD 0 RawNodeModel.dflt).isJoint ∧
        ((nodePipeline [nodeW] mbsW).getD 0 NodeData.dflt).mesh =
          (if (([nodeW]).getD 0 RawNodeModel.dflt).surfaceId > 0 then
            mbsW.lookup (([nodeW]).getD 0 RawNodeModel.dflt).surfaceId else none) ∧
        ((nodePipeline [nodeW] mbsW).getD 0 NodeData.dflt).light =
          (if (([nodeW]).getD 0 RawNodeModel.dflt).lightIx ≥ 0 then
            some (([nodeW]).getD 0 RawNodeModel.dflt).lightIx.toNat else none)) ∧
      (∀ ls : List RawLightModel,
        (buildLights ls).length = ls.length ∧
        ∀ j, j < ls.length →
          (buildLights ls).getD j ⟨0, "", (0, 0, 0), 0⟩ =
            ⟨j, (ls.getD j ⟨"", (0, 0, 0), 0⟩).name, (ls.getD j ⟨"", (0, 0, 0), 0⟩).color,
              (ls.getD j ⟨"", (0, 0, 0), 0⟩).intensity / 100⟩)) :=
  ⟨by decide, c10_node_alignment [nodeW] mbsW 0 (by decide)⟩

end FBX2glTF
